import Mathlib

/-!
Shallow embedding of the pose-challenge core of the ML_ARENA repository.

The geometry kernel, pose validators, round state machine and leaderboard
merge are translated from `src/app/arena/page-old-complex.tsx`; the
simplified flow's leaderboard write is translated from
`src/app/arena/page.tsx` (`finishGame`).  Times are modelled in whole
milliseconds (`performance.now()` values), coordinates and confidences as
real numbers, accuracies as integers.
-/

/-- A tracker keypoint: `{ x, y, score?, name? }` from the `Pose` interface. -/
structure Keypoint where
  x : ℝ
  y : ℝ
  score : Option ℝ
  name : Option String

/-- A tracker pose: a list of keypoints for one sampled instant. -/
structure Pose where
  keypoints : List Keypoint

def MIN_KP_SCORE : ℝ := 0.35

def POSE_HOLD_SECONDS : ℕ := 2

def POSE_TIME_LIMIT_SECONDS : ℕ := 20

def POSE_TIME_LIMIT_MS : ℕ := POSE_TIME_LIMIT_SECONDS * 1000

/-- The hold duration in milliseconds; the source compares
`(now - holdStart) / 1000 ≥ POSE_HOLD_SECONDS`, which over the reals is
exactly `now - holdStart ≥ 2000`. -/
def POSE_HOLD_MS : ℕ := POSE_HOLD_SECONDS * 1000

/-- `clamp(value, min, max) = Math.max(min, Math.min(max, value))`. -/
noncomputable def clamp (value lo hi : ℝ) : ℝ := max lo (min hi value)

/-- `lerp(a, b, t) = a + (b - a) * t`. -/
noncomputable def lerp (a b t : ℝ) : ℝ := a + (b - a) * t

/-- `score01To100(t) = Math.round(clamp(t, 0, 1) * 100)`; `Math.round`
rounds half-up, exactly Mathlib's `round`. -/
noncomputable def score01To100 (t : ℝ) : ℤ := round (clamp t 0 1 * 100)

/-- `getKp`: find a named keypoint; drop it if its confidence
(`kp.score ?? 0`) is below the threshold. -/
noncomputable def getKp (pose : Pose) (nm : String) (minScore : ℝ) : Option Keypoint :=
  match pose.keypoints.find? (fun k => k.name == some nm) with
  | none => none
  | some kp => if kp.score.getD 0 < minScore then none else some kp

/-- `dist(a, b) = Math.hypot(a.x - b.x, a.y - b.y)`. -/
noncomputable def dist (a b : Keypoint) : ℝ :=
  Real.sqrt ((a.x - b.x) ^ 2 + (a.y - b.y) ^ 2)

noncomputable def avgY (a b : Keypoint) : ℝ := (a.y + b.y) / 2

noncomputable def avgX (a b : Keypoint) : ℝ := (a.x + b.x) / 2

/-- `angleDeg(a, b, c)`: angle at `b` in degrees; a zero-length ray gives
180. -/
noncomputable def angleDeg (a b c : Keypoint) : ℝ :=
  let abx := a.x - b.x
  let aby := a.y - b.y
  let cbx := c.x - b.x
  let cby := c.y - b.y
  let dotp := abx * cbx + aby * cby
  let mag1 := Real.sqrt (abx ^ 2 + aby ^ 2)
  let mag2 := Real.sqrt (cbx ^ 2 + cby ^ 2)
  if mag1 = 0 ∨ mag2 = 0 then 180
  else Real.arccos (clamp (dotp / (mag1 * mag2)) (-1) 1) * 180 / Real.pi

/-- Hip fallback of `shoulderScale`: the second early-return block. -/
noncomputable def hipScale (pose : Pose) : ℝ :=
  match getKp pose "left_hip" MIN_KP_SCORE, getKp pose "right_hip" MIN_KP_SCORE with
  | some lh, some rh => if 1 < dist lh rh then dist lh rh else 100
  | _, _ => 100

/-- `shoulderScale`: shoulder width if `> 1`, else hip width if `> 1`,
else the constant 100. -/
noncomputable def shoulderScale (pose : Pose) : ℝ :=
  match getKp pose "left_shoulder" MIN_KP_SCORE, getKp pose "right_shoulder" MIN_KP_SCORE with
  | some ls, some rs => if 1 < dist ls rs then dist ls rs else hipScale pose
  | _, _ => hipScale pose

/-- JavaScript's `s || 1` on a non-negative number: 1 when `s` is 0. -/
noncomputable def jsOr1 (s : ℝ) : ℝ := if s = 0 then 1 else s

/-- Validator "T-Pose": arms straight out to the sides. -/
noncomputable def vTPose (pose : Pose) : ℤ :=
  match getKp pose "left_shoulder" MIN_KP_SCORE, getKp pose "right_shoulder" MIN_KP_SCORE,
        getKp pose "left_wrist" MIN_KP_SCORE, getKp pose "right_wrist" MIN_KP_SCORE with
  | some ls, some rs, some lw, some rw =>
    let s := dist ls rs
    let span := |rw.x - lw.x|
    let spanRel := span / jsOr1 s
    let wristsY := avgY lw rw
    let shouldersY := avgY ls rs
    let yDiff := |wristsY - shouldersY| / jsOr1 s
    let spanScore := clamp ((spanRel - 1.0) / (1.45 - 1.0)) 0 1
    let levelScore := clamp (1 - yDiff / 0.30) 0 1
    score01To100 (spanScore * levelScore)
  | _, _, _, _ => 0

/-- Validator "Hands Up": raise both hands above your head. -/
noncomputable def vHandsUp (pose : Pose) : ℤ :=
  match getKp pose "nose" MIN_KP_SCORE, getKp pose "left_wrist" MIN_KP_SCORE,
        getKp pose "right_wrist" MIN_KP_SCORE with
  | some nose, some lw, some rw =>
    let s := shoulderScale pose
    let wristsY := avgY lw rw
    let delta := (nose.y - wristsY) / s
    score01To100 (clamp (delta / 0.75) 0 1)
  | _, _, _ => 0

/-- Validator "Arms Wide (Santa)": open your arms wide. -/
noncomputable def vArmsWide (pose : Pose) : ℤ :=
  match getKp pose "left_shoulder" MIN_KP_SCORE, getKp pose "right_shoulder" MIN_KP_SCORE,
        getKp pose "left_wrist" MIN_KP_SCORE, getKp pose "right_wrist" MIN_KP_SCORE with
  | some ls, some rs, some lw, some rw =>
    let s := dist ls rs
    let span := |rw.x - lw.x|
    let spanRel := span / jsOr1 s
    score01To100 (clamp ((spanRel - 1.05) / (1.55 - 1.05)) 0 1)
  | _, _, _, _ => 0

/-- Validator "Antlers (Reindeer)": hands up near your head. -/
noncomputable def vAntlers (pose : Pose) : ℤ :=
  match getKp pose "left_wrist" MIN_KP_SCORE, getKp pose "right_wrist" MIN_KP_SCORE,
        getKp pose "nose" MIN_KP_SCORE with
  | some lw, some rw, some nose =>
    let s := shoulderScale pose
    let wristsY := avgY lw rw
    let up := clamp ((nose.y - wristsY) / (0.65 * s)) 0 1
    let handsApart := clamp (|rw.x - lw.x| / (1.2 * s)) 0 1
    score01To100 (up * 0.7 + handsApart * 0.3)
  | _, _, _ => 0

/-- Validator "Hands on Hips": place hands near your hips. -/
noncomputable def vHandsOnHips (pose : Pose) : ℤ :=
  match getKp pose "left_hip" MIN_KP_SCORE, getKp pose "right_hip" MIN_KP_SCORE,
        getKp pose "left_wrist" MIN_KP_SCORE, getKp pose "right_wrist" MIN_KP_SCORE with
  | some lh, some rh, some lw, some rw =>
    let s := shoulderScale pose
    let left := clamp (1 - dist lw lh / (0.9 * s)) 0 1
    let right := clamp (1 - dist rw rh / (0.9 * s)) 0 1
    score01To100 ((left + right) / 2)
  | _, _, _, _ => 0

/-- Validator "Left Arm Up": left hand up, right hand down. -/
noncomputable def vLeftArmUp (pose : Pose) : ℤ :=
  match getKp pose "nose" MIN_KP_SCORE, getKp pose "left_shoulder" MIN_KP_SCORE,
        getKp pose "right_shoulder" MIN_KP_SCORE, getKp pose "left_wrist" MIN_KP_SCORE,
        getKp pose "right_wrist" MIN_KP_SCORE with
  | some nose, some _ls, some rs, some lw, some rw =>
    let s := shoulderScale pose
    let leftUp := clamp ((nose.y - lw.y) / (0.7 * s)) 0 1
    let rightDown := clamp ((rw.y - rs.y) / (0.6 * s)) 0 1
    score01To100 (leftUp * 0.65 + rightDown * 0.35)
  | _, _, _, _, _ => 0

/-- Validator "Right Arm Up": right hand up, left hand down. -/
noncomputable def vRightArmUp (pose : Pose) : ℤ :=
  match getKp pose "nose" MIN_KP_SCORE, getKp pose "left_shoulder" MIN_KP_SCORE,
        getKp pose "right_shoulder" MIN_KP_SCORE, getKp pose "left_wrist" MIN_KP_SCORE,
        getKp pose "right_wrist" MIN_KP_SCORE with
  | some nose, some ls, some _rs, some lw, some rw =>
    let s := shoulderScale pose
    let rightUp := clamp ((nose.y - rw.y) / (0.7 * s)) 0 1
    let leftDown := clamp ((lw.y - ls.y) / (0.6 * s)) 0 1
    score01To100 (rightUp * 0.65 + leftDown * 0.35)
  | _, _, _, _, _ => 0

/-- Validator "Clap": bring your hands together. -/
noncomputable def vClap (pose : Pose) : ℤ :=
  match getKp pose "left_wrist" MIN_KP_SCORE, getKp pose "right_wrist" MIN_KP_SCORE with
  | some lw, some rw =>
    let s := shoulderScale pose
    let close := clamp (1 - dist lw rw / (0.45 * s)) 0 1
    score01To100 close
  | _, _ => 0

/-- Validator "Touch Toes": reach down towards your ankles. -/
noncomputable def vTouchToes (pose : Pose) : ℤ :=
  match getKp pose "left_wrist" MIN_KP_SCORE, getKp pose "right_wrist" MIN_KP_SCORE,
        getKp pose "left_ankle" MIN_KP_SCORE, getKp pose "right_ankle" MIN_KP_SCORE with
  | some lw, some rw, some la, some ra =>
    let s := shoulderScale pose
    let left := clamp (1 - dist lw la / (1.2 * s)) 0 1
    let right := clamp (1 - dist rw ra / (1.2 * s)) 0 1
    score01To100 ((left + right) / 2)
  | _, _, _, _ => 0

/-- Validator "Squat": bend your knees. -/
noncomputable def vSquat (pose : Pose) : ℤ :=
  match getKp pose "left_hip" MIN_KP_SCORE, getKp pose "left_knee" MIN_KP_SCORE,
        getKp pose "left_ankle" MIN_KP_SCORE, getKp pose "right_hip" MIN_KP_SCORE,
        getKp pose "right_knee" MIN_KP_SCORE, getKp pose "right_ankle" MIN_KP_SCORE with
  | some lh, some lk, some la, some rh, some rk, some ra =>
    let a1 := angleDeg lh lk la
    let a2 := angleDeg rh rk ra
    let avg := (a1 + a2) / 2
    let bend := clamp ((160 - avg) / (160 - 95)) 0 1
    score01To100 bend
  | _, _, _, _, _, _ => 0

/-- Validator "High Knee (Left)": lift your left knee up. -/
noncomputable def vHighKneeLeft (pose : Pose) : ℤ :=
  match getKp pose "left_hip" MIN_KP_SCORE, getKp pose "left_knee" MIN_KP_SCORE,
        getKp pose "right_hip" MIN_KP_SCORE with
  | some lh, some lk, some rh =>
    let s := shoulderScale pose
    let lift := clamp ((lh.y - lk.y) / (0.65 * s)) 0 1
    let stable := clamp ((lk.y - rh.y) / (1.2 * s)) 0 1
    score01To100 (lift * 0.75 + stable * 0.25)
  | _, _, _ => 0

/-- Validator "High Knee (Right)": lift your right knee up. -/
noncomputable def vHighKneeRight (pose : Pose) : ℤ :=
  match getKp pose "right_hip" MIN_KP_SCORE, getKp pose "right_knee" MIN_KP_SCORE,
        getKp pose "left_hip" MIN_KP_SCORE with
  | some rh, some rk, some lh =>
    let s := shoulderScale pose
    let lift := clamp ((rh.y - rk.y) / (0.65 * s)) 0 1
    let stable := clamp ((rk.y - lh.y) / (1.2 * s)) 0 1
    score01To100 (lift * 0.75 + stable * 0.25)
  | _, _, _ => 0

/-- Validator "Side Lunge (Left)": step wide and bend left knee. -/
noncomputable def vSideLungeLeft (pose : Pose) : ℤ :=
  match getKp pose "left_hip" MIN_KP_SCORE, getKp pose "left_knee" MIN_KP_SCORE,
        getKp pose "left_ankle" MIN_KP_SCORE, getKp pose "right_hip" MIN_KP_SCORE,
        getKp pose "right_knee" MIN_KP_SCORE, getKp pose "right_ankle" MIN_KP_SCORE with
  | some lh, some lk, some la, some rh, some rk, some ra =>
    let leftBend := clamp ((160 - angleDeg lh lk la) / (160 - 100)) 0 1
    let rightStraight := clamp ((angleDeg rh rk ra - 145) / (175 - 145)) 0 1
    score01To100 (leftBend * 0.7 + rightStraight * 0.3)
  | _, _, _, _, _, _ => 0

/-- Validator "Side Lunge (Right)": step wide and bend right knee. -/
noncomputable def vSideLungeRight (pose : Pose) : ℤ :=
  match getKp pose "left_hip" MIN_KP_SCORE, getKp pose "left_knee" MIN_KP_SCORE,
        getKp pose "left_ankle" MIN_KP_SCORE, getKp pose "right_hip" MIN_KP_SCORE,
        getKp pose "right_knee" MIN_KP_SCORE, getKp pose "right_ankle" MIN_KP_SCORE with
  | some lh, some lk, some la, some rh, some rk, some ra =>
    let rightBend := clamp ((160 - angleDeg rh rk ra) / (160 - 100)) 0 1
    let leftStraight := clamp ((angleDeg lh lk la - 145) / (175 - 145)) 0 1
    score01To100 (rightBend * 0.7 + leftStraight * 0.3)
  | _, _, _, _, _, _ => 0

/-- Validator "Balance (Left)": stand on left leg. -/
noncomputable def vBalanceLeft (pose : Pose) : ℤ :=
  match getKp pose "left_ankle" MIN_KP_SCORE, getKp pose "right_ankle" MIN_KP_SCORE,
        getKp pose "left_knee" MIN_KP_SCORE, getKp pose "right_knee" MIN_KP_SCORE with
  | some la, some ra, some lk, some rk =>
    let s := shoulderScale pose
    let lift := clamp ((ra.y - la.y) / (0.7 * s)) 0 1
    let kneeDiff := clamp ((rk.y - lk.y) / (0.8 * s)) 0 1
    score01To100 (lift * 0.7 + kneeDiff * 0.3)
  | _, _, _, _ => 0

/-- Validator "Balance (Right)": stand on right leg. -/
noncomputable def vBalanceRight (pose : Pose) : ℤ :=
  match getKp pose "left_ankle" MIN_KP_SCORE, getKp pose "right_ankle" MIN_KP_SCORE,
        getKp pose "left_knee" MIN_KP_SCORE, getKp pose "right_knee" MIN_KP_SCORE with
  | some la, some ra, some lk, some rk =>
    let s := shoulderScale pose
    let lift := clamp ((la.y - ra.y) / (0.7 * s)) 0 1
    let kneeDiff := clamp ((lk.y - rk.y) / (0.8 * s)) 0 1
    score01To100 (lift * 0.7 + kneeDiff * 0.3)
  | _, _, _, _ => 0

/-- Validator "Star Pose": hands up and feet wide. -/
noncomputable def vStarPose (pose : Pose) : ℤ :=
  match getKp pose "left_wrist" MIN_KP_SCORE, getKp pose "right_wrist" MIN_KP_SCORE,
        getKp pose "nose" MIN_KP_SCORE, getKp pose "left_ankle" MIN_KP_SCORE,
        getKp pose "right_ankle" MIN_KP_SCORE with
  | some lw, some rw, some nose, some la, some ra =>
    let s := shoulderScale pose
    let wristsY := avgY lw rw
    let handsUp := clamp ((nose.y - wristsY) / (0.65 * s)) 0 1
    let feetWide := clamp (|ra.x - la.x| / (1.6 * s)) 0 1
    score01To100 (handsUp * 0.6 + feetWide * 0.4)
  | _, _, _, _, _ => 0

/-- Validator "Warrior": wide stance + arms out. -/
noncomputable def vWarrior (pose : Pose) : ℤ :=
  match getKp pose "left_shoulder" MIN_KP_SCORE, getKp pose "right_shoulder" MIN_KP_SCORE,
        getKp pose "left_wrist" MIN_KP_SCORE, getKp pose "right_wrist" MIN_KP_SCORE,
        getKp pose "left_ankle" MIN_KP_SCORE, getKp pose "right_ankle" MIN_KP_SCORE with
  | some ls, some rs, some lw, some rw, some la, some ra =>
    let s := dist ls rs
    let armSpan := clamp (|rw.x - lw.x| / (1.45 * s)) 0 1
    let wristsY := avgY lw rw
    let shouldersY := avgY ls rs
    let level := clamp (1 - |wristsY - shouldersY| / (0.32 * s)) 0 1
    let stance := clamp (|ra.x - la.x| / (1.6 * s)) 0 1
    score01To100 (armSpan * 0.5 + level * 0.2 + stance * 0.3)
  | _, _, _, _, _, _ => 0

/-- Validator "Hands Behind Head": put hands near your ears. -/
noncomputable def vHandsBehindHead (pose : Pose) : ℤ :=
  match getKp pose "left_ear" MIN_KP_SCORE, getKp pose "right_ear" MIN_KP_SCORE,
        getKp pose "left_wrist" MIN_KP_SCORE, getKp pose "right_wrist" MIN_KP_SCORE with
  | some le, some re, some lw, some rw =>
    let s := shoulderScale pose
    let left := clamp (1 - dist lw le / (0.75 * s)) 0 1
    let right := clamp (1 - dist rw re / (0.75 * s)) 0 1
    score01To100 ((left + right) / 2)
  | _, _, _, _ => 0

/-- Validator "Punch Left": extend left arm forward. -/
noncomputable def vPunchLeft (pose : Pose) : ℤ :=
  match getKp pose "left_shoulder" MIN_KP_SCORE, getKp pose "left_elbow" MIN_KP_SCORE,
        getKp pose "left_wrist" MIN_KP_SCORE with
  | some ls, some le, some lw =>
    let elbow := angleDeg ls le lw
    let straight := clamp ((elbow - 135) / (175 - 135)) 0 1
    score01To100 straight
  | _, _, _ => 0

/-- Validator "Punch Right": extend right arm forward. -/
noncomputable def vPunchRight (pose : Pose) : ℤ :=
  match getKp pose "right_shoulder" MIN_KP_SCORE, getKp pose "right_elbow" MIN_KP_SCORE,
        getKp pose "right_wrist" MIN_KP_SCORE with
  | some rs, some re, some rw =>
    let elbow := angleDeg rs re rw
    let straight := clamp ((elbow - 135) / (175 - 135)) 0 1
    score01To100 straight
  | _, _, _ => 0

/-- Validator "Kick Left": lift left foot up. -/
noncomputable def vKickLeft (pose : Pose) : ℤ :=
  match getKp pose "left_hip" MIN_KP_SCORE, getKp pose "left_ankle" MIN_KP_SCORE with
  | some lh, some la =>
    let s := shoulderScale pose
    let lift := clamp ((lh.y - la.y) / (0.75 * s)) 0 1
    score01To100 lift
  | _, _ => 0

/-- Validator "Kick Right": lift right foot up. -/
noncomputable def vKickRight (pose : Pose) : ℤ :=
  match getKp pose "right_hip" MIN_KP_SCORE, getKp pose "right_ankle" MIN_KP_SCORE with
  | some rh, some ra =>
    let s := shoulderScale pose
    let lift := clamp ((rh.y - ra.y) / (0.75 * s)) 0 1
    score01To100 lift
  | _, _ => 0

/-- Validator "Lean Left": lean body to the left. -/
noncomputable def vLeanLeft (pose : Pose) : ℤ :=
  match getKp pose "left_shoulder" MIN_KP_SCORE, getKp pose "right_shoulder" MIN_KP_SCORE,
        getKp pose "left_hip" MIN_KP_SCORE, getKp pose "right_hip" MIN_KP_SCORE with
  | some ls, some rs, some lh, some rh =>
    let shoulderMidX := avgX ls rs
    let hipMidX := avgX lh rh
    let s := dist ls rs
    let offset := (hipMidX - shoulderMidX) / jsOr1 s
    score01To100 (clamp (|offset| / 0.35) 0 1)
  | _, _, _, _ => 0

/-- Validator "Lean Right": lean body to the right. -/
noncomputable def vLeanRight (pose : Pose) : ℤ :=
  match getKp pose "left_shoulder" MIN_KP_SCORE, getKp pose "right_shoulder" MIN_KP_SCORE,
        getKp pose "left_hip" MIN_KP_SCORE, getKp pose "right_hip" MIN_KP_SCORE with
  | some ls, some rs, some lh, some rh =>
    let shoulderMidX := avgX ls rs
    let hipMidX := avgX lh rh
    let s := dist ls rs
    let offset := (shoulderMidX - hipMidX) / jsOr1 s
    score01To100 (clamp (|offset| / 0.35) 0 1)
  | _, _, _, _ => 0

/-- Validator "Elf Hop (Bend Knees)": bend knees ready to jump. -/
noncomputable def vElfHop (pose : Pose) : ℤ :=
  match getKp pose "left_hip" MIN_KP_SCORE, getKp pose "left_knee" MIN_KP_SCORE,
        getKp pose "left_ankle" MIN_KP_SCORE, getKp pose "right_hip" MIN_KP_SCORE,
        getKp pose "right_knee" MIN_KP_SCORE, getKp pose "right_ankle" MIN_KP_SCORE with
  | some lh, some lk, some la, some rh, some rk, some ra =>
    let a1 := angleDeg lh lk la
    let a2 := angleDeg rh rk ra
    let avg := (a1 + a2) / 2
    let bend := clamp ((155 - avg) / (155 - 105)) 0 1
    score01To100 bend
  | _, _, _, _, _, _ => 0

/-- Validator "Santa Salute": right hand salute near forehead. -/
noncomputable def vSantaSalute (pose : Pose) : ℤ :=
  match getKp pose "right_wrist" MIN_KP_SCORE, getKp pose "right_ear" MIN_KP_SCORE with
  | some rw, some re =>
    let s := shoulderScale pose
    let salute := clamp (1 - dist rw re / (0.7 * s)) 0 1
    score01To100 salute
  | _, _ => 0

/-- Validator "Reindeer Jump": both hands above head like antlers. -/
noncomputable def vReindeerJump (pose : Pose) : ℤ :=
  match getKp pose "left_wrist" MIN_KP_SCORE, getKp pose "right_wrist" MIN_KP_SCORE,
        getKp pose "nose" MIN_KP_SCORE with
  | some lw, some rw, some nose =>
    let s := shoulderScale pose
    let up := clamp ((nose.y - avgY lw rw) / (0.7 * s)) 0 1
    let apart := clamp (|rw.x - lw.x| / (1.4 * s)) 0 1
    score01To100 (up * 0.6 + apart * 0.4)
  | _, _, _ => 0

/-- Validator "Snowman Stand": arms straight down, stand stiff. -/
noncomputable def vSnowmanStand (pose : Pose) : ℤ :=
  match getKp pose "left_wrist" MIN_KP_SCORE, getKp pose "right_wrist" MIN_KP_SCORE,
        getKp pose "left_hip" MIN_KP_SCORE, getKp pose "right_hip" MIN_KP_SCORE with
  | some lw, some rw, some lh, some rh =>
    let s := shoulderScale pose
    let armsDown := clamp ((avgY lw rw - avgY lh rh) / (0.7 * s)) 0 1
    score01To100 armsDown
  | _, _, _, _ => 0

/-- Validator "Gift Box Squat": squat down with hands together. -/
noncomputable def vGiftBoxSquat (pose : Pose) : ℤ :=
  match getKp pose "left_wrist" MIN_KP_SCORE, getKp pose "right_wrist" MIN_KP_SCORE,
        getKp pose "left_hip" MIN_KP_SCORE, getKp pose "left_knee" MIN_KP_SCORE,
        getKp pose "left_ankle" MIN_KP_SCORE, getKp pose "right_hip" MIN_KP_SCORE,
        getKp pose "right_knee" MIN_KP_SCORE, getKp pose "right_ankle" MIN_KP_SCORE with
  | some lw, some rw, some lh, some lk, some la, some rh, some rk, some ra =>
    let s := shoulderScale pose
    let handsTogether := clamp (1 - dist lw rw / (0.5 * s)) 0 1
    let a1 := angleDeg lh lk la
    let a2 := angleDeg rh rk ra
    let squat := clamp ((160 - (a1 + a2) / 2) / (160 - 100)) 0 1
    score01To100 (handsTogether * 0.4 + squat * 0.6)
  | _, _, _, _, _, _, _, _ => 0

/-- Validator "Christmas Tree": hands above head forming triangle. -/
noncomputable def vChristmasTree (pose : Pose) : ℤ :=
  match getKp pose "left_wrist" MIN_KP_SCORE, getKp pose "right_wrist" MIN_KP_SCORE,
        getKp pose "nose" MIN_KP_SCORE with
  | some lw, some rw, some nose =>
    let s := shoulderScale pose
    let handsUp := clamp ((nose.y - avgY lw rw) / (0.6 * s)) 0 1
    let together := clamp (1 - dist lw rw / (0.8 * s)) 0 1
    score01To100 (handsUp * 0.5 + together * 0.5)
  | _, _, _ => 0

/-- Validator "Snowball Throw": right hand behind head like throwing. -/
noncomputable def vSnowballThrow (pose : Pose) : ℤ :=
  match getKp pose "right_wrist" MIN_KP_SCORE, getKp pose "right_shoulder" MIN_KP_SCORE,
        getKp pose "right_ear" MIN_KP_SCORE with
  | some rw, some rs, some _re =>
    let s := shoulderScale pose
    let behindHead := clamp ((rs.y - rw.y) / (0.5 * s)) 0 1
    score01To100 behindHead
  | _, _, _ => 0

/-- Validator "Grinch Pose": arms crossed over chest. -/
noncomputable def vGrinchPose (pose : Pose) : ℤ :=
  match getKp pose "left_wrist" MIN_KP_SCORE, getKp pose "right_wrist" MIN_KP_SCORE,
        getKp pose "left_shoulder" MIN_KP_SCORE, getKp pose "right_shoulder" MIN_KP_SCORE with
  | some lw, some rw, some ls, some rs =>
    let s := dist ls rs
    let crossed := clamp (1 - |(lw.x - rs.x) + (rw.x - ls.x)| / (1.2 * s)) 0 1
    score01To100 crossed
  | _, _, _, _ => 0

/-- Validator "Angel Wings": arms out at 45 degrees up. -/
noncomputable def vAngelWings (pose : Pose) : ℤ :=
  match getKp pose "left_shoulder" MIN_KP_SCORE, getKp pose "right_shoulder" MIN_KP_SCORE,
        getKp pose "left_wrist" MIN_KP_SCORE, getKp pose "right_wrist" MIN_KP_SCORE with
  | some ls, some rs, some lw, some rw =>
    let s := shoulderScale pose
    let shoulderY := avgY ls rs
    let wristY := avgY lw rw
    let upward := clamp ((shoulderY - wristY) / (0.5 * s)) 0 1
    let wide := clamp (|rw.x - lw.x| / (1.5 * s)) 0 1
    score01To100 (upward * 0.5 + wide * 0.5)
  | _, _, _, _ => 0

/-- Validator "Candy Cane": one arm straight up, lean sideways. -/
noncomputable def vCandyCane (pose : Pose) : ℤ :=
  match getKp pose "right_wrist" MIN_KP_SCORE, getKp pose "nose" MIN_KP_SCORE,
        getKp pose "left_shoulder" MIN_KP_SCORE, getKp pose "right_shoulder" MIN_KP_SCORE,
        getKp pose "left_hip" MIN_KP_SCORE, getKp pose "right_hip" MIN_KP_SCORE with
  | some rw, some nose, some ls, some rs, some lh, some rh =>
    let s := shoulderScale pose
    let armUp := clamp ((nose.y - rw.y) / (0.65 * s)) 0 1
    let shoulderMidX := avgX ls rs
    let hipMidX := avgX lh rh
    let lean := clamp (|hipMidX - shoulderMidX| / (0.3 * s)) 0 1
    score01To100 (armUp * 0.7 + lean * 0.3)
  | _, _, _, _, _, _ => 0

/-- Validator "Ho Ho Ho": both hands on belly. -/
noncomputable def vHoHoHo (pose : Pose) : ℤ :=
  match getKp pose "left_wrist" MIN_KP_SCORE, getKp pose "right_wrist" MIN_KP_SCORE,
        getKp pose "left_hip" MIN_KP_SCORE, getKp pose "right_hip" MIN_KP_SCORE,
        getKp pose "left_shoulder" MIN_KP_SCORE, getKp pose "right_shoulder" MIN_KP_SCORE with
  | some lw, some rw, some lh, some rh, some ls, some rs =>
    let bellyY := (avgY ls rs + avgY lh rh) / 2
    let wristsY := avgY lw rw
    let s := shoulderScale pose
    let onBelly := clamp (1 - |wristsY - bellyY| / (0.4 * s)) 0 1
    score01To100 onBelly
  | _, _, _, _, _, _ => 0

/-- Validator "Sleigh Ride": hands forward like holding reins. -/
noncomputable def vSleighRide (pose : Pose) : ℤ :=
  match getKp pose "left_wrist" MIN_KP_SCORE, getKp pose "right_wrist" MIN_KP_SCORE,
        getKp pose "left_shoulder" MIN_KP_SCORE, getKp pose "right_shoulder" MIN_KP_SCORE with
  | some lw, some rw, some ls, some rs =>
    let s := shoulderScale pose
    let handsForward := clamp ((avgY lw rw - avgY ls rs) / (0.4 * s)) 0 1
    score01To100 handsForward
  | _, _, _, _ => 0

/-- Validator "Elf Dance": one knee up, hands on hips. -/
noncomputable def vElfDance (pose : Pose) : ℤ :=
  match getKp pose "left_hip" MIN_KP_SCORE, getKp pose "right_hip" MIN_KP_SCORE,
        getKp pose "left_wrist" MIN_KP_SCORE, getKp pose "right_wrist" MIN_KP_SCORE,
        getKp pose "left_knee" MIN_KP_SCORE, getKp pose "right_knee" MIN_KP_SCORE with
  | some lh, some rh, some lw, some rw, some lk, some rk =>
    let s := shoulderScale pose
    let handsOnHips := clamp (1 - (dist lw lh + dist rw rh) / (1.5 * s)) 0 1
    let kneeLift := clamp (|lk.y - rk.y| / (0.6 * s)) 0 1
    score01To100 (handsOnHips * 0.5 + kneeLift * 0.5)
  | _, _, _, _, _, _ => 0

/-- Validator "Star on Top": jump position - arms and legs wide. -/
noncomputable def vStarOnTop (pose : Pose) : ℤ :=
  match getKp pose "left_wrist" MIN_KP_SCORE, getKp pose "right_wrist" MIN_KP_SCORE,
        getKp pose "left_ankle" MIN_KP_SCORE, getKp pose "right_ankle" MIN_KP_SCORE,
        getKp pose "nose" MIN_KP_SCORE with
  | some lw, some rw, some la, some ra, some nose =>
    let s := shoulderScale pose
    let armsWide := clamp (|rw.x - lw.x| / (1.6 * s)) 0 1
    let legsWide := clamp (|ra.x - la.x| / (1.5 * s)) 0 1
    let armsUp := clamp ((nose.y - avgY lw rw) / (0.6 * s)) 0 1
    score01To100 (armsWide * 0.4 + legsWide * 0.3 + armsUp * 0.3)
  | _, _, _, _, _ => 0

/-- Validator "Present Surprise": hands near face in surprise. -/
noncomputable def vPresentSurprise (pose : Pose) : ℤ :=
  match getKp pose "left_wrist" MIN_KP_SCORE, getKp pose "right_wrist" MIN_KP_SCORE,
        getKp pose "nose" MIN_KP_SCORE with
  | some lw, some rw, some nose =>
    let s := shoulderScale pose
    let nearFace := clamp (1 - (dist lw nose + dist rw nose) / (1.5 * s)) 0 1
    score01To100 nearFace
  | _, _, _ => 0

/-- Validator "Jingle Bell Rock": one hand up, one hand down. -/
noncomputable def vJingleBellRock (pose : Pose) : ℤ :=
  match getKp pose "left_wrist" MIN_KP_SCORE, getKp pose "right_wrist" MIN_KP_SCORE,
        getKp pose "nose" MIN_KP_SCORE, getKp pose "left_hip" MIN_KP_SCORE with
  | some lw, some rw, some nose, some lh =>
    let s := shoulderScale pose
    let oneUp := max (clamp ((nose.y - lw.y) / (0.6 * s)) 0 1)
                     (clamp ((nose.y - rw.y) / (0.6 * s)) 0 1)
    let oneDown := max (clamp ((lw.y - lh.y) / (0.5 * s)) 0 1)
                       (clamp ((rw.y - lh.y) / (0.5 * s)) 0 1)
    score01To100 ((oneUp + oneDown) / 2)
  | _, _, _, _ => 0

/-- Validator "Frosty Wave": wave with right hand high. -/
noncomputable def vFrostyWave (pose : Pose) : ℤ :=
  match getKp pose "right_wrist" MIN_KP_SCORE, getKp pose "right_shoulder" MIN_KP_SCORE,
        getKp pose "nose" MIN_KP_SCORE with
  | some rw, some rs, some nose =>
    let s := shoulderScale pose
    let handUp := clamp ((nose.y - rw.y) / (0.6 * s)) 0 1
    let toSide := clamp (|rw.x - rs.x| / (0.5 * s)) 0 1
    score01To100 (handUp * 0.7 + toSide * 0.3)
  | _, _, _ => 0

/-- Validator "Mistletoe Kiss": blow a kiss - hand near lips. -/
noncomputable def vMistletoeKiss (pose : Pose) : ℤ :=
  match getKp pose "right_wrist" MIN_KP_SCORE, getKp pose "nose" MIN_KP_SCORE with
  | some rw, some nose =>
    let s := shoulderScale pose
    let nearMouth := clamp (1 - dist rw nose / (0.6 * s)) 0 1
    score01To100 nearMouth
  | _, _ => 0

/-- Validator "Nutcracker March": stand tall, one knee lifted high. -/
noncomputable def vNutcrackerMarch (pose : Pose) : ℤ :=
  match getKp pose "left_knee" MIN_KP_SCORE, getKp pose "right_knee" MIN_KP_SCORE,
        getKp pose "left_hip" MIN_KP_SCORE, getKp pose "right_hip" MIN_KP_SCORE with
  | some lk, some rk, some lh, some rh =>
    let s := shoulderScale pose
    let kneeLift := max (clamp ((lh.y - lk.y) / (0.65 * s)) 0 1)
                        (clamp ((rh.y - rk.y) / (0.65 * s)) 0 1)
    score01To100 kneeLift
  | _, _, _, _ => 0

/-- Validator "Chimney Climb": both arms reaching up high. -/
noncomputable def vChimneyClimb (pose : Pose) : ℤ :=
  match getKp pose "left_wrist" MIN_KP_SCORE, getKp pose "right_wrist" MIN_KP_SCORE,
        getKp pose "nose" MIN_KP_SCORE with
  | some lw, some rw, some nose =>
    let s := shoulderScale pose
    let bothUp := clamp ((nose.y - avgY lw rw) / (0.8 * s)) 0 1
    score01To100 bothUp
  | _, _, _ => 0

/-- Validator "Santa's Bag Carry": one hand on shoulder carrying a bag. -/
noncomputable def vSantasBagCarry (pose : Pose) : ℤ :=
  match getKp pose "right_wrist" MIN_KP_SCORE, getKp pose "right_shoulder" MIN_KP_SCORE,
        getKp pose "right_ear" MIN_KP_SCORE with
  | some rw, some rs, some _re =>
    let s := shoulderScale pose
    let nearShoulder := clamp (1 - dist rw rs / (0.6 * s)) 0 1
    let handUp := clamp ((rs.y - rw.y) / (0.4 * s)) 0 1
    score01To100 (nearShoulder * 0.7 + handUp * 0.3)
  | _, _, _ => 0

/-- A challenge: name, on-screen description, and its pure validator. -/
structure Challenge where
  name : String
  description : String
  validate : Pose → ℤ

/-- The validator registry from `page-old-complex.tsx` (the full challenge
array with `validate` functions). -/
noncomputable def poseValidators : List Challenge :=
  [⟨"T-Pose", "Arms straight out to the sides", vTPose⟩,
   ⟨"Hands Up", "Raise both hands above your head", vHandsUp⟩,
   ⟨"Arms Wide (Santa)", "Open your arms wide", vArmsWide⟩,
   ⟨"Antlers (Reindeer)", "Hands up near your head", vAntlers⟩,
   ⟨"Hands on Hips", "Place hands near your hips", vHandsOnHips⟩,
   ⟨"Left Arm Up", "Left hand up, right hand down", vLeftArmUp⟩,
   ⟨"Right Arm Up", "Right hand up, left hand down", vRightArmUp⟩,
   ⟨"Clap", "Bring your hands together", vClap⟩,
   ⟨"Touch Toes", "Reach down towards your ankles", vTouchToes⟩,
   ⟨"Squat", "Bend your knees (squat down)", vSquat⟩,
   ⟨"High Knee (Left)", "Lift your left knee up", vHighKneeLeft⟩,
   ⟨"High Knee (Right)", "Lift your right knee up", vHighKneeRight⟩,
   ⟨"Side Lunge (Left)", "Step wide and bend left knee", vSideLungeLeft⟩,
   ⟨"Side Lunge (Right)", "Step wide and bend right knee", vSideLungeRight⟩,
   ⟨"Balance (Left)", "Stand on left leg (lift right foot)", vBalanceLeft⟩,
   ⟨"Balance (Right)", "Stand on right leg (lift left foot)", vBalanceRight⟩,
   ⟨"Star Pose", "Hands up and feet wide", vStarPose⟩,
   ⟨"Warrior", "Wide stance + arms out", vWarrior⟩,
   ⟨"Hands Behind Head", "Put hands near your ears", vHandsBehindHead⟩,
   ⟨"Punch Left", "Extend left arm forward", vPunchLeft⟩,
   ⟨"Punch Right", "Extend right arm forward", vPunchRight⟩,
   ⟨"Kick Left", "Lift left foot up (kick)", vKickLeft⟩,
   ⟨"Kick Right", "Lift right foot up (kick)", vKickRight⟩,
   ⟨"Lean Left", "Lean body to the left", vLeanLeft⟩,
   ⟨"Lean Right", "Lean body to the right", vLeanRight⟩,
   ⟨"Elf Hop (Bend Knees)", "Bend knees like you\u2019re about to jump", vElfHop⟩,
   ⟨"Santa Salute", "Right hand salute near forehead", vSantaSalute⟩,
   ⟨"Reindeer Jump", "Both hands above head like antlers", vReindeerJump⟩,
   ⟨"Snowman Stand", "Arms straight down, stand stiff", vSnowmanStand⟩,
   ⟨"Gift Box Squat", "Squat down with hands together", vGiftBoxSquat⟩,
   ⟨"Christmas Tree", "Hands above head forming triangle", vChristmasTree⟩,
   ⟨"Snowball Throw", "Right hand behind head like throwing", vSnowballThrow⟩,
   ⟨"Grinch Pose", "Arms crossed over chest", vGrinchPose⟩,
   ⟨"Angel Wings", "Arms out at 45 degrees up", vAngelWings⟩,
   ⟨"Candy Cane", "One arm straight up, lean sideways", vCandyCane⟩,
   ⟨"Ho Ho Ho", "Both hands on belly", vHoHoHo⟩,
   ⟨"Sleigh Ride", "Lean back, hands forward like holding reins", vSleighRide⟩,
   ⟨"Elf Dance", "One knee up, hands on hips", vElfDance⟩,
   ⟨"Star on Top", "Jump position - arms and legs wide", vStarOnTop⟩,
   ⟨"Present Surprise", "Hands near face in surprise", vPresentSurprise⟩,
   ⟨"Jingle Bell Rock", "One hand up, one hand down", vJingleBellRock⟩,
   ⟨"Frosty Wave", "Wave with right hand high", vFrostyWave⟩,
   ⟨"Mistletoe Kiss", "Blow a kiss - hand near lips", vMistletoeKiss⟩,
   ⟨"Nutcracker March", "Stand tall, one knee lifted high", vNutcrackerMarch⟩,
   ⟨"Chimney Climb", "Both arms reaching up high", vChimneyClimb⟩,
   ⟨"Santa\x27s Bag Carry", "One hand on shoulder carrying heavy bag", vSantasBagCarry⟩]

/-- The joints each validator guards on with an early `return 0` (read off
the `if (!a || !b || ...) return 0` line of each validator). -/
def requiredJoints : String → List String
  | "T-Pose" => ["left_shoulder", "right_shoulder", "left_wrist", "right_wrist"]
  | "Hands Up" => ["nose", "left_wrist", "right_wrist"]
  | "Arms Wide (Santa)" => ["left_shoulder", "right_shoulder", "left_wrist", "right_wrist"]
  | "Antlers (Reindeer)" => ["left_wrist", "right_wrist", "nose"]
  | "Hands on Hips" => ["left_hip", "right_hip", "left_wrist", "right_wrist"]
  | "Left Arm Up" => ["nose", "left_shoulder", "right_shoulder", "left_wrist", "right_wrist"]
  | "Right Arm Up" => ["nose", "left_shoulder", "right_shoulder", "left_wrist", "right_wrist"]
  | "Clap" => ["left_wrist", "right_wrist"]
  | "Touch Toes" => ["left_wrist", "right_wrist", "left_ankle", "right_ankle"]
  | "Squat" => ["left_hip", "left_knee", "left_ankle", "right_hip", "right_knee", "right_ankle"]
  | "High Knee (Left)" => ["left_hip", "left_knee", "right_hip"]
  | "High Knee (Right)" => ["right_hip", "right_knee", "left_hip"]
  | "Side Lunge (Left)" =>
      ["left_hip", "left_knee", "left_ankle", "right_hip", "right_knee", "right_ankle"]
  | "Side Lunge (Right)" =>
      ["left_hip", "left_knee", "left_ankle", "right_hip", "right_knee", "right_ankle"]
  | "Balance (Left)" => ["left_ankle", "right_ankle", "left_knee", "right_knee"]
  | "Balance (Right)" => ["left_ankle", "right_ankle", "left_knee", "right_knee"]
  | "Star Pose" => ["left_wrist", "right_wrist", "nose", "left_ankle", "right_ankle"]
  | "Warrior" =>
      ["left_shoulder", "right_shoulder", "left_wrist", "right_wrist", "left_ankle", "right_ankle"]
  | "Hands Behind Head" => ["left_ear", "right_ear", "left_wrist", "right_wrist"]
  | "Punch Left" => ["left_shoulder", "left_elbow", "left_wrist"]
  | "Punch Right" => ["right_shoulder", "right_elbow", "right_wrist"]
  | "Kick Left" => ["left_hip", "left_ankle"]
  | "Kick Right" => ["right_hip", "right_ankle"]
  | "Lean Left" => ["left_shoulder", "right_shoulder", "left_hip", "right_hip"]
  | "Lean Right" => ["left_shoulder", "right_shoulder", "left_hip", "right_hip"]
  | "Elf Hop (Bend Knees)" =>
      ["left_hip", "left_knee", "left_ankle", "right_hip", "right_knee", "right_ankle"]
  | "Santa Salute" => ["right_wrist", "right_ear"]
  | "Reindeer Jump" => ["left_wrist", "right_wrist", "nose"]
  | "Snowman Stand" => ["left_wrist", "right_wrist", "left_hip", "right_hip"]
  | "Gift Box Squat" =>
      ["left_wrist", "right_wrist", "left_hip", "left_knee", "left_ankle",
       "right_hip", "right_knee", "right_ankle"]
  | "Christmas Tree" => ["left_wrist", "right_wrist", "nose"]
  | "Snowball Throw" => ["right_wrist", "right_shoulder", "right_ear"]
  | "Grinch Pose" => ["left_wrist", "right_wrist", "left_shoulder", "right_shoulder"]
  | "Angel Wings" => ["left_shoulder", "right_shoulder", "left_wrist", "right_wrist"]
  | "Candy Cane" =>
      ["right_wrist", "nose", "left_shoulder", "right_shoulder", "left_hip", "right_hip"]
  | "Ho Ho Ho" =>
      ["left_wrist", "right_wrist", "left_hip", "right_hip", "left_shoulder", "right_shoulder"]
  | "Sleigh Ride" => ["left_wrist", "right_wrist", "left_shoulder", "right_shoulder"]
  | "Elf Dance" => ["left_hip", "right_hip", "left_wrist", "right_wrist", "left_knee", "right_knee"]
  | "Star on Top" => ["left_wrist", "right_wrist", "left_ankle", "right_ankle", "nose"]
  | "Present Surprise" => ["left_wrist", "right_wrist", "nose"]
  | "Jingle Bell Rock" => ["left_wrist", "right_wrist", "nose", "left_hip"]
  | "Frosty Wave" => ["right_wrist", "right_shoulder", "nose"]
  | "Mistletoe Kiss" => ["right_wrist", "nose"]
  | "Nutcracker March" => ["left_knee", "right_knee", "left_hip", "right_hip"]
  | "Chimney Climb" => ["left_wrist", "right_wrist", "nose"]
  | "Santa\x27s Bag Carry" => ["right_wrist", "right_shoulder", "right_ear"]
  | _ => []

/-- Round outcome recorded in `poseResults`: the source's
`pending | passed | failed`, with `failed` meaning timed out. -/
inductive Outcome
  | pending
  | passed
  | timedOut
deriving DecidableEq, Repr

/-- Per-round mutable state of `page-old-complex.tsx`: `holdStartMsRef`,
`poseBestAccuracyRef[idx]`, `poseResolvedRef`, `poseResults[idx]`,
`scoreRef` (session score) and `poseDeadlineMsRef`. -/
structure RoundState where
  holdStartedAt : Option ℕ
  bestAccuracy : ℕ
  resolved : Bool
  outcome : Outcome
  score : ℕ
  deadline : ℕ
deriving DecidableEq, Repr

/-- Sample path of `startDetection`: the round-state updates for one tracker
sample whose validator accuracy is `acc`, at time `now` (ms). -/
def processSample (now acc : ℕ) (s : RoundState) : RoundState :=
  if s.resolved then s
  else if 80 ≤ acc then
    if POSE_HOLD_MS ≤ now - s.holdStartedAt.getD now then
      { s with bestAccuracy := max s.bestAccuracy acc, holdStartedAt := none, resolved := true,
               score := s.score + max s.bestAccuracy acc / 10, outcome := Outcome.passed }
    else
      { s with bestAccuracy := max s.bestAccuracy acc,
               holdStartedAt := some (s.holdStartedAt.getD now) }
  else
    { s with bestAccuracy := max s.bestAccuracy acc, holdStartedAt := none }

/-- Timeout path of `startPoseTimer`: the periodic check body. Nothing
happens while `deadline - now > 0` or once the round is resolved; otherwise
the round resolves as timed out and awards `floor(bestAccuracy / 10)`. -/
def checkTimeout (now : ℕ) (s : RoundState) : RoundState :=
  if now < s.deadline then s
  else if s.resolved then s
  else
    { s with resolved := true,
             score := s.score + s.bestAccuracy / 10,
             outcome := if s.outcome = Outcome.pending then Outcome.timedOut else s.outcome }

/-- One of the two event sources feeding the round state. -/
inductive GameEvent
  | sample (now acc : ℕ)
  | timeoutCheck (now : ℕ)
deriving DecidableEq, Repr

def step : GameEvent → RoundState → RoundState
  | GameEvent.sample now acc, s => processSample now acc s
  | GameEvent.timeoutCheck now, s => checkTimeout now s

def runEvents (events : List GameEvent) (s : RoundState) : RoundState :=
  events.foldl (fun st e => step e st) s

/-- Fresh round state as set up by `startPoseTimer` at time `now`, carrying
the session score accumulated so far. -/
def initRound (now sessionScore : ℕ) : RoundState :=
  { holdStartedAt := none, bestAccuracy := 0, resolved := false,
    outcome := Outcome.pending, score := sessionScore, deadline := now + POSE_TIME_LIMIT_MS }

/-- ASCII lowering of one character, modelling `String.prototype.toLowerCase`
on the letters that matter for name identity. -/
def lowerChar (c : Char) : Char :=
  if 65 ≤ c.toNat ∧ c.toNat ≤ 90 then Char.ofNat (c.toNat + 32) else c

/-- `s.toLowerCase()`. -/
def lowerStr (s : String) : String := String.mk (s.data.map lowerChar)

/-- A persisted leaderboard entry.  `name` is optional because persisted
JSON may lack the field (the merge filter checks
`typeof e.name === 'string'`). -/
structure LBEntry where
  name : Option String
  score : ℤ
  accuracy : ℤ
  timestamp : ℕ
  attempts : ℕ
deriving DecidableEq, Repr

/-- The persisted `localStorage.getItem('leaderboard')` blob as the merge
distinguishes it: absent, unparsable, parses to a non-array JSON value, or
parses to an array of entries. -/
inductive StoredBlob
  | absent
  | malformed
  | nonArrayJson
  | jsonArray (entries : List LBEntry)
deriving DecidableEq, Repr

/-- Complex-flow load (`finishGame`, page-old-complex): `try JSON.parse`
with a catch, then an `Array.isArray` check; every failure path yields
the empty collection. -/
def loadBoard : StoredBlob → List LBEntry
  | StoredBlob.jsonArray es => es
  | _ => []

/-- `leaderboard.findIndex((entry) => entry.name.toLowerCase() === participantName.toLowerCase())`.
Returns `none` when the callback throws (an entry without a string `name`
is scanned), `some none` for "not found" (-1), `some (some i)` for the
first matching index. -/
def findPlayerIndex (pname : String) : List LBEntry → Option (Option ℕ)
  | [] => some none
  | e :: rest =>
    match e.name with
    | none => none
    | some n =>
      if lowerStr n = lowerStr pname then some (some 0)
      else (findPlayerIndex pname rest).map (Option.map (· + 1))

/-- In-place update of the found entry: accumulate score, overwrite
accuracy and timestamp, bump attempts (`(attempts || 1) + 1`). -/
def applySession (finalScore finalAccuracy : ℤ) (now : ℕ) (e : LBEntry) : LBEntry :=
  { e with score := e.score + finalScore,
           accuracy := finalAccuracy,
           timestamp := now,
           attempts := (if e.attempts = 0 then 1 else e.attempts) + 1 }

/-- `leaderboard[i] = f(leaderboard[i])`. -/
def modifyEntry (f : LBEntry → LBEntry) : ℕ → List LBEntry → List LBEntry
  | _, [] => []
  | 0, e :: rest => f e :: rest
  | Nat.succ n, e :: rest => e :: modifyEntry f n rest

/-- The freshly pushed entry for a new player. -/
def newEntry (pname : String) (finalScore finalAccuracy : ℤ) (now : ℕ) : LBEntry :=
  { name := some pname, score := finalScore, accuracy := finalAccuracy,
    timestamp := now, attempts := 1 }

/-- The merge comparator `(a, b) => (b.score ?? 0) - (a.score ?? 0)`:
`a` sorts no later than `b` when `b.score ≤ a.score`. -/
def scoreGe (a b : LBEntry) : Prop := b.score ≤ a.score

instance : DecidableRel scoreGe := fun a b => inferInstanceAs (Decidable (b.score ≤ a.score))

instance : IsTotal LBEntry scoreGe := ⟨fun a b => le_total b.score a.score⟩

instance : IsTrans LBEntry scoreGe := ⟨fun _ _ _ h1 h2 => le_trans h2 h1⟩

/-- Update-or-insert followed by the structural-validity filter
(`.filter((e) => e && typeof e.name === 'string')`); `none` models the merge
throwing (a missing-name entry was scanned before any match). -/
def mergedEntries (pname : String) (finalScore finalAccuracy : ℤ) (now : ℕ)
    (blob : StoredBlob) : Option (List LBEntry) :=
  match findPlayerIndex pname (loadBoard blob) with
  | none => none
  | some (some i) =>
    some ((modifyEntry (applySession finalScore finalAccuracy now) i (loadBoard blob)).filter
      (fun e => e.name.isSome))
  | some none =>
    some ((loadBoard blob ++ [newEntry pname finalScore finalAccuracy now]).filter
      (fun e => e.name.isSome))

/-- Complex-flow `finishGame` leaderboard write: find/update-or-insert,
filter invalid entries, stable-sort descending by score (JavaScript's
`Array.prototype.sort` is stable; `insertionSort` with `scoreGe` is the
stable descending sort), truncate to 200, persist. -/
def finishGameMerge (pname : String) (finalScore finalAccuracy : ℤ) (now : ℕ)
    (blob : StoredBlob) : Option (List LBEntry) :=
  (mergedEntries pname finalScore finalAccuracy now blob).map
    (fun m => (m.insertionSort scoreGe).take 200)

/-- Bool form of "this entry's name case-insensitively equals `pname`". -/
def isMatchB (pname : String) (e : LBEntry) : Bool :=
  match e.name with
  | some n => decide (lowerStr n = lowerStr pname)
  | none => false

/-- All entries of a collection for one case-insensitive player name. -/
def entriesFor (pname : String) (l : List LBEntry) : List LBEntry :=
  l.filter (fun e => isMatchB pname e)

/-- Case-insensitive player names of the named entries are pairwise
distinct: the "at most one entry per case-insensitive name" invariant. -/
def NoDupNames (l : List LBEntry) : Prop :=
  ((l.filterMap LBEntry.name).map lowerStr).Nodup

/-- A leaderboard entry written by the simplified flow
(`src/app/arena/page.tsx` `finishGame`): no `attempts` field. -/
structure SimpleEntry where
  name : String
  score : ℤ
  accuracy : ℤ
  timestamp : ℕ
deriving DecidableEq, Repr

/-- The persisted blob as the simplified flow sees it. -/
inductive SimpleBlob
  | absent
  | malformed
  | nonArrayJson
  | jsonArray (entries : List SimpleEntry)
deriving DecidableEq, Repr

/-- Simplified-flow `finishGame`:
`JSON.parse(localStorage.getItem('leaderboard') || '[]')` with no
try/catch and no `Array.isArray` check, then an unconditional `push`.
`none` models the uncaught exception (unparsable JSON, or `push` on a
non-array). -/
def simpleFinishGame (pname : String) (finalScore finalAccuracy : ℤ) (now : ℕ) :
    SimpleBlob → Option (List SimpleEntry)
  | SimpleBlob.absent => some ([] ++ [⟨pname, finalScore, finalAccuracy, now⟩])
  | SimpleBlob.malformed => none
  | SimpleBlob.nonArrayJson => none
  | SimpleBlob.jsonArray es => some (es ++ [⟨pname, finalScore, finalAccuracy, now⟩])

/-- Case-insensitive uniqueness for simplified-flow entries. -/
def SimpleNoDupNames (l : List SimpleEntry) : Prop :=
  (l.map (fun e => lowerStr e.name)).Nodup

theorem runEvents_cons (e : GameEvent) (rest : List GameEvent) (s : RoundState) :
    runEvents (e :: rest) s = runEvents rest (step e s) := rfl

theorem step_resolved_eq (e : GameEvent) (s : RoundState) (h : s.resolved = true) :
    step e s = s := by
  cases e with
  | sample t a =>
    show processSample t a s = s
    unfold processSample
    rw [if_pos h]
  | timeoutCheck t =>
    show checkTimeout t s = s
    unfold checkTimeout
    split_ifs <;> simp_all

theorem runEvents_resolved (events : List GameEvent) (s : RoundState) (h : s.resolved = true) :
    runEvents events s = s := by
  induction events with
  | nil => rfl
  | cons e rest ih =>
    rw [runEvents_cons, step_resolved_eq e s h, ih]

theorem processSample_deadline (now acc : ℕ) (s : RoundState) :
    (processSample now acc s).deadline = s.deadline := by
  unfold processSample
  split_ifs <;> rfl

theorem processSample_score_base (now acc : ℕ) (s : RoundState) :
    s.score ≤ (processSample now acc s).score := by
  unfold processSample
  split_ifs <;> simp

/-- Side conditions on the event sources for a continuous hold before the
deadline: every sample stays at or above the pass threshold 80, and every
event fires strictly before the round deadline. -/
def holdOk (d : ℕ) : GameEvent → Prop
  | GameEvent.sample now acc => now < d ∧ 80 ≤ acc
  | GameEvent.timeoutCheck now => now < d

instance (d : ℕ) (e : GameEvent) : Decidable (holdOk d e) := by
  cases e <;> simp only [holdOk] <;> infer_instance

theorem hold_run (events : List GameEvent) : ∀ (s : RoundState) (t0 : ℕ),
    s.resolved = false → s.holdStartedAt = some t0 →
    (∀ e ∈ events, holdOk s.deadline e) →
    (∃ t acc, GameEvent.sample t acc ∈ events ∧ t0 + POSE_HOLD_MS ≤ t) →
    (runEvents events s).resolved = true ∧
    (runEvents events s).outcome = Outcome.passed ∧
    (runEvents events s).score = s.score + (runEvents events s).bestAccuracy / 10 := by
  induction events with
  | nil =>
    intro s t0 _ _ _ hex
    rcases hex with ⟨t, acc, hmem, _⟩
    cases hmem
  | cons e rest ih =>
    intro s t0 hres hhold hok hex
    cases e with
    | timeoutCheck tc =>
      have htc : tc < s.deadline := by
        have h := hok _ (List.mem_cons_self _ _)
        simpa [holdOk] using h
      have hstep : step (GameEvent.timeoutCheck tc) s = s := by
        show checkTimeout tc s = s
        unfold checkTimeout
        rw [if_pos htc]
      rw [runEvents_cons, hstep]
      refine ih s t0 hres hhold (fun e he => hok e (List.mem_cons_of_mem _ he)) ?_
      rcases hex with ⟨t, acc, hmem, hge⟩
      rcases List.mem_cons.mp hmem with heq | hmem'
      · simp at heq
      · exact ⟨t, acc, hmem', hge⟩
    | sample ts accs =>
      have hs : ts < s.deadline ∧ 80 ≤ accs := by
        have h := hok _ (List.mem_cons_self _ _)
        simpa [holdOk] using h
      have hP : 0 < POSE_HOLD_MS := by norm_num [POSE_HOLD_MS, POSE_HOLD_SECONDS]
      by_cases hr : t0 + POSE_HOLD_MS ≤ ts
      · -- this sample completes the continuous 2-second hold
        have hstep : step (GameEvent.sample ts accs) s =
            { s with bestAccuracy := max s.bestAccuracy accs, holdStartedAt := none,
                     resolved := true,
                     score := s.score + max s.bestAccuracy accs / 10,
                     outcome := Outcome.passed } := by
          show processSample ts accs s = _
          unfold processSample
          rw [hres, hhold]
          simp only [Bool.false_eq_true, if_false, Option.getD_some]
          rw [if_pos hs.2, if_pos (by omega)]
        rw [runEvents_cons, hstep,
            runEvents_resolved _ _ (by rfl)]
        refine ⟨rfl, rfl, rfl⟩
      · -- hold continues with the same start time
        have hstep : step (GameEvent.sample ts accs) s =
            { s with bestAccuracy := max s.bestAccuracy accs,
                     holdStartedAt := some t0 } := by
          show processSample ts accs s = _
          unfold processSample
          rw [hres, hhold]
          simp only [Bool.false_eq_true, if_false, Option.getD_some]
          rw [if_pos hs.2, if_neg (by omega)]
        rw [runEvents_cons, hstep]
        refine ih _ t0 hres rfl (fun e he => hok e (List.mem_cons_of_mem _ he)) ?_
        rcases hex with ⟨t, acc, hmem, hge⟩
        rcases List.mem_cons.mp hmem with heq | hmem'
        · exfalso
          injection heq with h1 h2
          omega
        · exact ⟨t, acc, hmem', hge⟩

theorem processSample_low (now acc : ℕ) (s : RoundState) (hres : s.resolved = false)
    (hlow : acc < 80) :
    processSample now acc s =
      { s with bestAccuracy := max s.bestAccuracy acc, holdStartedAt := none } := by
  unfold processSample
  rw [hres]
  simp only [Bool.false_eq_true, if_false]
  rw [if_neg (by omega)]

theorem processSample_firstHigh (now acc : ℕ) (s : RoundState) (hres : s.resolved = false)
    (hhold : s.holdStartedAt = none) (hacc : 80 ≤ acc) :
    processSample now acc s =
      { s with bestAccuracy := max s.bestAccuracy acc, holdStartedAt := some now } := by
  have hP : 0 < POSE_HOLD_MS := by norm_num [POSE_HOLD_MS, POSE_HOLD_SECONDS]
  unfold processSample
  rw [hres, hhold]
  simp only [Bool.false_eq_true, if_false, Option.getD_none]
  rw [if_pos hacc, if_neg (by omega)]

/-- C1: for every round, if a tracker sample stream keeps the validator
accuracy at or above the pass threshold 80 continuously for at least 2
seconds before the 20-second deadline, the round transitions to
Resolved(passed) and awards exactly `floor(bestAccuracy / 10)` points.
The stream starts with a first above-threshold sample at time `t0` (which
starts the hold), every event fires before the deadline with accuracy
at least 80, and some later sample arrives at least `POSE_HOLD_MS`
(2000 ms) after `t0`. -/
theorem continuous_hold_resolves_passed (s : RoundState) (t0 acc0 : ℕ)
    (rest : List GameEvent)
    (hres : s.resolved = false) (hhold : s.holdStartedAt = none)
    (hok : ∀ e ∈ GameEvent.sample t0 acc0 :: rest, holdOk s.deadline e)
    (hwit : ∃ t acc, GameEvent.sample t acc ∈ rest ∧ t0 + POSE_HOLD_MS ≤ t) :
    (runEvents (GameEvent.sample t0 acc0 :: rest) s).resolved = true ∧
    (runEvents (GameEvent.sample t0 acc0 :: rest) s).outcome = Outcome.passed ∧
    (runEvents (GameEvent.sample t0 acc0 :: rest) s).score =
      s.score + (runEvents (GameEvent.sample t0 acc0 :: rest) s).bestAccuracy / 10 := by
  have hs : t0 < s.deadline ∧ 80 ≤ acc0 := by
    simpa [holdOk] using hok _ (List.mem_cons_self _ _)
  have hstep : step (GameEvent.sample t0 acc0) s =
      { s with bestAccuracy := max s.bestAccuracy acc0, holdStartedAt := some t0 } := by
    show processSample t0 acc0 s = _
    exact processSample_firstHigh t0 acc0 s hres hhold hs.2
  rw [runEvents_cons, hstep]
  exact hold_run rest _ t0 hres rfl (fun e he => hok e (List.mem_cons_of_mem _ he)) hwit

/-- Witness for C1: accuracy 95 held from 0 ms to 2500 ms with a 20-second
deadline resolves the round as passed with 9 points. -/
theorem continuous_hold_resolves_passed_witness :
    ((runEvents [GameEvent.sample 0 95, GameEvent.sample 1000 95, GameEvent.sample 2500 95]
        (initRound 0 0)).resolved = true ∧
      (runEvents [GameEvent.sample 0 95, GameEvent.sample 1000 95, GameEvent.sample 2500 95]
        (initRound 0 0)).outcome = Outcome.passed ∧
      (runEvents [GameEvent.sample 0 95, GameEvent.sample 1000 95, GameEvent.sample 2500 95]
        (initRound 0 0)).score =
        (initRound 0 0).score +
          (runEvents [GameEvent.sample 0 95, GameEvent.sample 1000 95, GameEvent.sample 2500 95]
            (initRound 0 0)).bestAccuracy / 10) ∧
    (runEvents [GameEvent.sample 0 95, GameEvent.sample 1000 95, GameEvent.sample 2500 95]
      (initRound 0 0)).score = 9 :=
  ⟨continuous_hold_resolves_passed (initRound 0 0) 0 95
      [GameEvent.sample 1000 95, GameEvent.sample 2500 95] rfl rfl (by decide)
      ⟨2500, 95, by decide, by decide⟩,
    by decide⟩

/-- C2: for every round whose deadline elapses while the round is still
unresolved, the timeout check transitions the round to Resolved(timedOut)
and awards `floor(bestAccuracy / 10)` points from the best accuracy
observed during the round; a round is never left pending past its
deadline. -/
theorem timeout_resolves_round (s : RoundState) (t : ℕ)
    (hres : s.resolved = false) (hout : s.outcome = Outcome.pending)
    (ht : s.deadline ≤ t) :
    (checkTimeout t s).resolved = true ∧
    (checkTimeout t s).outcome = Outcome.timedOut ∧
    (checkTimeout t s).score = s.score + s.bestAccuracy / 10 := by
  unfold checkTimeout
  split_ifs with h1 h2
  · exact absurd h1 (not_lt.mpr ht)
  · rw [hres] at h2; cases h2
  · exact ⟨rfl, by simp [hout], rfl⟩

/-- Witness for C2: best accuracy 60 at the 20-second deadline resolves as
timed out with 6 points (and a never-attempted round would award 0). -/
theorem timeout_resolves_round_witness :
    ((checkTimeout 20000 ⟨none, 60, false, Outcome.pending, 0, 20000⟩).resolved = true ∧
      (checkTimeout 20000 ⟨none, 60, false, Outcome.pending, 0, 20000⟩).outcome =
        Outcome.timedOut ∧
      (checkTimeout 20000 ⟨none, 60, false, Outcome.pending, 0, 20000⟩).score = 0 + 60 / 10) ∧
    (checkTimeout 20000 ⟨none, 60, false, Outcome.pending, 0, 20000⟩).score = 6 ∧
    (checkTimeout 20000 ⟨none, 0, false, Outcome.pending, 0, 20000⟩).score = 0 :=
  ⟨timeout_resolves_round ⟨none, 60, false, Outcome.pending, 0, 20000⟩ 20000 rfl rfl
      (by decide),
    by decide, by decide⟩

/-- C3: a sample below the threshold resets `holdStartedAt` to null while
leaving the round unresolved, and a later sample at or above 80 starts the
hold clock from scratch at its own time (it cannot resolve the round by
itself, so no interrupted holding accumulates toward a pass). -/
theorem dip_resets_hold (s : RoundState) (t acc t' acc' : ℕ)
    (hres : s.resolved = false) (hlow : acc < 80) (hhigh : 80 ≤ acc') :
    (processSample t acc s).holdStartedAt = none ∧
    (processSample t acc s).resolved = false ∧
    (processSample t' acc' (processSample t acc s)).holdStartedAt = some t' ∧
    (processSample t' acc' (processSample t acc s)).resolved = false := by
  rw [processSample_low t acc s hres hlow]
  rw [processSample_firstHigh t' acc'
      { s with bestAccuracy := max s.bestAccuracy acc, holdStartedAt := none } hres rfl hhigh]
  exact ⟨rfl, hres, rfl, hres⟩

/-- Witness for C3: a dip to 40 at 1500 ms wipes a hold started at 0 ms,
and the next 90-accuracy sample at 1600 ms restarts the hold at 1600 ms
without resolving. -/
theorem dip_resets_hold_witness :
    (processSample 1500 40 ⟨some 0, 90, false, Outcome.pending, 0, 20000⟩).holdStartedAt =
        none ∧
    (processSample 1500 40 ⟨some 0, 90, false, Outcome.pending, 0, 20000⟩).resolved = false ∧
    (processSample 1600 90
        (processSample 1500 40 ⟨some 0, 90, false, Outcome.pending, 0, 20000⟩)).holdStartedAt =
      some 1600 ∧
    (processSample 1600 90
        (processSample 1500 40 ⟨some 0, 90, false, Outcome.pending, 0, 20000⟩)).resolved =
      false :=
  dip_resets_hold ⟨some 0, 90, false, Outcome.pending, 0, 20000⟩ 1500 40 1600 90 rfl
    (by decide) (by decide)

/-- Reachability invariant of a round: while unresolved its recorded
outcome is still pending. -/
def Coherent (s : RoundState) : Prop := s.resolved = false → s.outcome = Outcome.pending

instance (s : RoundState) : Decidable (Coherent s) := by
  unfold Coherent; infer_instance

/-- C4: once a round is resolved, any further sample or timeout check
leaves the state unchanged (so neither outcome nor session score changes),
and an outcome only ever moves pending → passed or pending → timedOut,
never in reverse; the invariant is preserved. -/
theorem resolution_terminal_and_monotone (s : RoundState) (e : GameEvent) (hc : Coherent s) :
    (s.resolved = true → step e s = s) ∧
    ((step e s).outcome = s.outcome ∨
      (s.outcome = Outcome.pending ∧
        ((step e s).outcome = Outcome.passed ∨ (step e s).outcome = Outcome.timedOut))) ∧
    Coherent (step e s) := by
  refine ⟨fun h => step_resolved_eq e s h, ?_⟩
  cases e with
  | sample t a =>
    simp only [step]
    unfold processSample Coherent
    split_ifs with h1 h2 h3 <;> simp_all [Coherent]
  | timeoutCheck t =>
    simp only [step]
    unfold checkTimeout Coherent
    split_ifs with h1 h2 <;> simp_all [Coherent]

/-- Witness for C4: a resolved passed round at score 9 is untouched by a
late 100-accuracy sample. -/
theorem resolution_terminal_and_monotone_witness :
    ((⟨none, 95, true, Outcome.passed, 9, 20000⟩ : RoundState).resolved = true →
      step (GameEvent.sample 500 100) ⟨none, 95, true, Outcome.passed, 9, 20000⟩ =
        ⟨none, 95, true, Outcome.passed, 9, 20000⟩) ∧
    ((step (GameEvent.sample 500 100) ⟨none, 95, true, Outcome.passed, 9, 20000⟩).outcome =
        (⟨none, 95, true, Outcome.passed, 9, 20000⟩ : RoundState).outcome ∨
      ((⟨none, 95, true, Outcome.passed, 9, 20000⟩ : RoundState).outcome = Outcome.pending ∧
        ((step (GameEvent.sample 500 100)
            ⟨none, 95, true, Outcome.passed, 9, 20000⟩).outcome = Outcome.passed ∨
          (step (GameEvent.sample 500 100)
            ⟨none, 95, true, Outcome.passed, 9, 20000⟩).outcome = Outcome.timedOut))) ∧
    Coherent (step (GameEvent.sample 500 100) ⟨none, 95, true, Outcome.passed, 9, 20000⟩) :=
  resolution_terminal_and_monotone ⟨none, 95, true, Outcome.passed, 9, 20000⟩
    (GameEvent.sample 500 100) (by decide)

set_option maxHeartbeats 3200000 in
/-- C5: for every validator in the registry and every pose, if any joint
the validator requires is absent from the pose or has confidence below
`MIN_KP_SCORE` (0.35), the validator returns exactly 0 — never partial
credit from incomplete data. -/
theorem validator_missing_required_joint_zero :
    ∀ c ∈ poseValidators, ∀ pose : Pose, ∀ j ∈ requiredJoints c.name,
      getKp pose j MIN_KP_SCORE = none → c.validate pose = 0 := by
  intro c hc pose j hj h
  simp only [poseValidators, List.mem_cons, List.not_mem_nil, or_false] at hc
  rcases hc with rfl | rfl | rfl | rfl | rfl | rfl | rfl | rfl | rfl | rfl | rfl | rfl | rfl | rfl | rfl | rfl | rfl | rfl | rfl | rfl | rfl | rfl | rfl | rfl | rfl | rfl | rfl | rfl | rfl | rfl | rfl | rfl | rfl | rfl | rfl | rfl | rfl | rfl | rfl | rfl | rfl | rfl | rfl | rfl | rfl | rfl
  · fin_cases hj <;>
    · unfold vTPose
      cases hx0 : getKp pose "left_shoulder" MIN_KP_SCORE <;>
      cases hx1 : getKp pose "right_shoulder" MIN_KP_SCORE <;>
      cases hx2 : getKp pose "left_wrist" MIN_KP_SCORE <;>
      cases hx3 : getKp pose "right_wrist" MIN_KP_SCORE <;>
      first | rfl | simp_all
  · fin_cases hj <;>
    · unfold vHandsUp
      cases hx0 : getKp pose "nose" MIN_KP_SCORE <;>
      cases hx1 : getKp pose "left_wrist" MIN_KP_SCORE <;>
      cases hx2 : getKp pose "right_wrist" MIN_KP_SCORE <;>
      first | rfl | simp_all
  · fin_cases hj <;>
    · unfold vArmsWide
      cases hx0 : getKp pose "left_shoulder" MIN_KP_SCORE <;>
      cases hx1 : getKp pose "right_shoulder" MIN_KP_SCORE <;>
      cases hx2 : getKp pose "left_wrist" MIN_KP_SCORE <;>
      cases hx3 : getKp pose "right_wrist" MIN_KP_SCORE <;>
      first | rfl | simp_all
  · fin_cases hj <;>
    · unfold vAntlers
      cases hx0 : getKp pose "left_wrist" MIN_KP_SCORE <;>
      cases hx1 : getKp pose "right_wrist" MIN_KP_SCORE <;>
      cases hx2 : getKp pose "nose" MIN_KP_SCORE <;>
      first | rfl | simp_all
  · fin_cases hj <;>
    · unfold vHandsOnHips
      cases hx0 : getKp pose "left_hip" MIN_KP_SCORE <;>
      cases hx1 : getKp pose "right_hip" MIN_KP_SCORE <;>
      cases hx2 : getKp pose "left_wrist" MIN_KP_SCORE <;>
      cases hx3 : getKp pose "right_wrist" MIN_KP_SCORE <;>
      first | rfl | simp_all
  · fin_cases hj <;>
    · unfold vLeftArmUp
      cases hx0 : getKp pose "nose" MIN_KP_SCORE <;>
      cases hx1 : getKp pose "left_shoulder" MIN_KP_SCORE <;>
      cases hx2 : getKp pose "right_shoulder" MIN_KP_SCORE <;>
      cases hx3 : getKp pose "left_wrist" MIN_KP_SCORE <;>
      cases hx4 : getKp pose "right_wrist" MIN_KP_SCORE <;>
      first | rfl | simp_all
  · fin_cases hj <;>
    · unfold vRightArmUp
      cases hx0 : getKp pose "nose" MIN_KP_SCORE <;>
      cases hx1 : getKp pose "left_shoulder" MIN_KP_SCORE <;>
      cases hx2 : getKp pose "right_shoulder" MIN_KP_SCORE <;>
      cases hx3 : getKp pose "left_wrist" MIN_KP_SCORE <;>
      cases hx4 : getKp pose "right_wrist" MIN_KP_SCORE <;>
      first | rfl | simp_all
  · fin_cases hj <;>
    · unfold vClap
      cases hx0 : getKp pose "left_wrist" MIN_KP_SCORE <;>
      cases hx1 : getKp pose "right_wrist" MIN_KP_SCORE <;>
      first | rfl | simp_all
  · fin_cases hj <;>
    · unfold vTouchToes
      cases hx0 : getKp pose "left_wrist" MIN_KP_SCORE <;>
      cases hx1 : getKp pose "right_wrist" MIN_KP_SCORE <;>
      cases hx2 : getKp pose "left_ankle" MIN_KP_SCORE <;>
      cases hx3 : getKp pose "right_ankle" MIN_KP_SCORE <;>
      first | rfl | simp_all
  · fin_cases hj <;>
    · unfold vSquat
      cases hx0 : getKp pose "left_hip" MIN_KP_SCORE <;>
      cases hx1 : getKp pose "left_knee" MIN_KP_SCORE <;>
      cases hx2 : getKp pose "left_ankle" MIN_KP_SCORE <;>
      cases hx3 : getKp pose "right_hip" MIN_KP_SCORE <;>
      cases hx4 : getKp pose "right_knee" MIN_KP_SCORE <;>
      cases hx5 : getKp pose "right_ankle" MIN_KP_SCORE <;>
      first | rfl | simp_all
  · fin_cases hj <;>
    · unfold vHighKneeLeft
      cases hx0 : getKp pose "left_hip" MIN_KP_SCORE <;>
      cases hx1 : getKp pose "left_knee" MIN_KP_SCORE <;>
      cases hx2 : getKp pose "right_hip" MIN_KP_SCORE <;>
      first | rfl | simp_all
  · fin_cases hj <;>
    · unfold vHighKneeRight
      cases hx0 : getKp pose "right_hip" MIN_KP_SCORE <;>
      cases hx1 : getKp pose "right_knee" MIN_KP_SCORE <;>
      cases hx2 : getKp pose "left_hip" MIN_KP_SCORE <;>
      first | rfl | simp_all
  · fin_cases hj <;>
    · unfold vSideLungeLeft
      cases hx0 : getKp pose "left_hip" MIN_KP_SCORE <;>
      cases hx1 : getKp pose "left_knee" MIN_KP_SCORE <;>
      cases hx2 : getKp pose "left_ankle" MIN_KP_SCORE <;>
      cases hx3 : getKp pose "right_hip" MIN_KP_SCORE <;>
      cases hx4 : getKp pose "right_knee" MIN_KP_SCORE <;>
      cases hx5 : getKp pose "right_ankle" MIN_KP_SCORE <;>
      first | rfl | simp_all
  · fin_cases hj <;>
    · unfold vSideLungeRight
      cases hx0 : getKp pose "left_hip" MIN_KP_SCORE <;>
      cases hx1 : getKp pose "left_knee" MIN_KP_SCORE <;>
      cases hx2 : getKp pose "left_ankle" MIN_KP_SCORE <;>
      cases hx3 : getKp pose "right_hip" MIN_KP_SCORE <;>
      cases hx4 : getKp pose "right_knee" MIN_KP_SCORE <;>
      cases hx5 : getKp pose "right_ankle" MIN_KP_SCORE <;>
      first | rfl | simp_all
  · fin_cases hj <;>
    · unfold vBalanceLeft
      cases hx0 : getKp pose "left_ankle" MIN_KP_SCORE <;>
      cases hx1 : getKp pose "right_ankle" MIN_KP_SCORE <;>
      cases hx2 : getKp pose "left_knee" MIN_KP_SCORE <;>
      cases hx3 : getKp pose "right_knee" MIN_KP_SCORE <;>
      first | rfl | simp_all
  · fin_cases hj <;>
    · unfold vBalanceRight
      cases hx0 : getKp pose "left_ankle" MIN_KP_SCORE <;>
      cases hx1 : getKp pose "right_ankle" MIN_KP_SCORE <;>
      cases hx2 : getKp pose "left_knee" MIN_KP_SCORE <;>
      cases hx3 : getKp pose "right_knee" MIN_KP_SCORE <;>
      first | rfl | simp_all
  · fin_cases hj <;>
    · unfold vStarPose
      cases hx0 : getKp pose "left_wrist" MIN_KP_SCORE <;>
      cases hx1 : getKp pose "right_wrist" MIN_KP_SCORE <;>
      cases hx2 : getKp pose "nose" MIN_KP_SCORE <;>
      cases hx3 : getKp pose "left_ankle" MIN_KP_SCORE <;>
      cases hx4 : getKp pose "right_ankle" MIN_KP_SCORE <;>
      first | rfl | simp_all
  · fin_cases hj <;>
    · unfold vWarrior
      cases hx0 : getKp pose "left_shoulder" MIN_KP_SCORE <;>
      cases hx1 : getKp pose "right_shoulder" MIN_KP_SCORE <;>
      cases hx2 : getKp pose "left_wrist" MIN_KP_SCORE <;>
      cases hx3 : getKp pose "right_wrist" MIN_KP_SCORE <;>
      cases hx4 : getKp pose "left_ankle" MIN_KP_SCORE <;>
      cases hx5 : getKp pose "right_ankle" MIN_KP_SCORE <;>
      first | rfl | simp_all
  · fin_cases hj <;>
    · unfold vHandsBehindHead
      cases hx0 : getKp pose "left_ear" MIN_KP_SCORE <;>
      cases hx1 : getKp pose "right_ear" MIN_KP_SCORE <;>
      cases hx2 : getKp pose "left_wrist" MIN_KP_SCORE <;>
      cases hx3 : getKp pose "right_wrist" MIN_KP_SCORE <;>
      first | rfl | simp_all
  · fin_cases hj <;>
    · unfold vPunchLeft
      cases hx0 : getKp pose "left_shoulder" MIN_KP_SCORE <;>
      cases hx1 : getKp pose "left_elbow" MIN_KP_SCORE <;>
      cases hx2 : getKp pose "left_wrist" MIN_KP_SCORE <;>
      first | rfl | simp_all
  · fin_cases hj <;>
    · unfold vPunchRight
      cases hx0 : getKp pose "right_shoulder" MIN_KP_SCORE <;>
      cases hx1 : getKp pose "right_elbow" MIN_KP_SCORE <;>
      cases hx2 : getKp pose "right_wrist" MIN_KP_SCORE <;>
      first | rfl | simp_all
  · fin_cases hj <;>
    · unfold vKickLeft
      cases hx0 : getKp pose "left_hip" MIN_KP_SCORE <;>
      cases hx1 : getKp pose "left_ankle" MIN_KP_SCORE <;>
      first | rfl | simp_all
  · fin_cases hj <;>
    · unfold vKickRight
      cases hx0 : getKp pose "right_hip" MIN_KP_SCORE <;>
      cases hx1 : getKp pose "right_ankle" MIN_KP_SCORE <;>
      first | rfl | simp_all
  · fin_cases hj <;>
    · unfold vLeanLeft
      cases hx0 : getKp pose "left_shoulder" MIN_KP_SCORE <;>
      cases hx1 : getKp pose "right_shoulder" MIN_KP_SCORE <;>
      cases hx2 : getKp pose "left_hip" MIN_KP_SCORE <;>
      cases hx3 : getKp pose "right_hip" MIN_KP_SCORE <;>
      first | rfl | simp_all
  · fin_cases hj <;>
    · unfold vLeanRight
      cases hx0 : getKp pose "left_shoulder" MIN_KP_SCORE <;>
      cases hx1 : getKp pose "right_shoulder" MIN_KP_SCORE <;>
      cases hx2 : getKp pose "left_hip" MIN_KP_SCORE <;>
      cases hx3 : getKp pose "right_hip" MIN_KP_SCORE <;>
      first | rfl | simp_all
  · fin_cases hj <;>
    · unfold vElfHop
      cases hx0 : getKp pose "left_hip" MIN_KP_SCORE <;>
      cases hx1 : getKp pose "left_knee" MIN_KP_SCORE <;>
      cases hx2 : getKp pose "left_ankle" MIN_KP_SCORE <;>
      cases hx3 : getKp pose "right_hip" MIN_KP_SCORE <;>
      cases hx4 : getKp pose "right_knee" MIN_KP_SCORE <;>
      cases hx5 : getKp pose "right_ankle" MIN_KP_SCORE <;>
      first | rfl | simp_all
  · fin_cases hj <;>
    · unfold vSantaSalute
      cases hx0 : getKp pose "right_wrist" MIN_KP_SCORE <;>
      cases hx1 : getKp pose "right_ear" MIN_KP_SCORE <;>
      first | rfl | simp_all
  · fin_cases hj <;>
    · unfold vReindeerJump
      cases hx0 : getKp pose "left_wrist" MIN_KP_SCORE <;>
      cases hx1 : getKp pose "right_wrist" MIN_KP_SCORE <;>
      cases hx2 : getKp pose "nose" MIN_KP_SCORE <;>
      first | rfl | simp_all
  · fin_cases hj <;>
    · unfold vSnowmanStand
      cases hx0 : getKp pose "left_wrist" MIN_KP_SCORE <;>
      cases hx1 : getKp pose "right_wrist" MIN_KP_SCORE <;>
      cases hx2 : getKp pose "left_hip" MIN_KP_SCORE <;>
      cases hx3 : getKp pose "right_hip" MIN_KP_SCORE <;>
      first | rfl | simp_all
  · fin_cases hj <;>
    · unfold vGiftBoxSquat
      cases hx0 : getKp pose "left_wrist" MIN_KP_SCORE <;>
      cases hx1 : getKp pose "right_wrist" MIN_KP_SCORE <;>
      cases hx2 : getKp pose "left_hip" MIN_KP_SCORE <;>
      cases hx3 : getKp pose "left_knee" MIN_KP_SCORE <;>
      cases hx4 : getKp pose "left_ankle" MIN_KP_SCORE <;>
      cases hx5 : getKp pose "right_hip" MIN_KP_SCORE <;>
      cases hx6 : getKp pose "right_knee" MIN_KP_SCORE <;>
      cases hx7 : getKp pose "right_ankle" MIN_KP_SCORE <;>
      first | rfl | simp_all
  · fin_cases hj <;>
    · unfold vChristmasTree
      cases hx0 : getKp pose "left_wrist" MIN_KP_SCORE <;>
      cases hx1 : getKp pose "right_wrist" MIN_KP_SCORE <;>
      cases hx2 : getKp pose "nose" MIN_KP_SCORE <;>
      first | rfl | simp_all
  · fin_cases hj <;>
    · unfold vSnowballThrow
      cases hx0 : getKp pose "right_wrist" MIN_KP_SCORE <;>
      cases hx1 : getKp pose "right_shoulder" MIN_KP_SCORE <;>
      cases hx2 : getKp pose "right_ear" MIN_KP_SCORE <;>
      first | rfl | simp_all
  · fin_cases hj <;>
    · unfold vGrinchPose
      cases hx0 : getKp pose "left_wrist" MIN_KP_SCORE <;>
      cases hx1 : getKp pose "right_wrist" MIN_KP_SCORE <;>
      cases hx2 : getKp pose "left_shoulder" MIN_KP_SCORE <;>
      cases hx3 : getKp pose "right_shoulder" MIN_KP_SCORE <;>
      first | rfl | simp_all
  · fin_cases hj <;>
    · unfold vAngelWings
      cases hx0 : getKp pose "left_shoulder" MIN_KP_SCORE <;>
      cases hx1 : getKp pose "right_shoulder" MIN_KP_SCORE <;>
      cases hx2 : getKp pose "left_wrist" MIN_KP_SCORE <;>
      cases hx3 : getKp pose "right_wrist" MIN_KP_SCORE <;>
      first | rfl | simp_all
  · fin_cases hj <;>
    · unfold vCandyCane
      cases hx0 : getKp pose "right_wrist" MIN_KP_SCORE <;>
      cases hx1 : getKp pose "nose" MIN_KP_SCORE <;>
      cases hx2 : getKp pose "left_shoulder" MIN_KP_SCORE <;>
      cases hx3 : getKp pose "right_shoulder" MIN_KP_SCORE <;>
      cases hx4 : getKp pose "left_hip" MIN_KP_SCORE <;>
      cases hx5 : getKp pose "right_hip" MIN_KP_SCORE <;>
      first | rfl | simp_all
  · fin_cases hj <;>
    · unfold vHoHoHo
      cases hx0 : getKp pose "left_wrist" MIN_KP_SCORE <;>
      cases hx1 : getKp pose "right_wrist" MIN_KP_SCORE <;>
      cases hx2 : getKp pose "left_hip" MIN_KP_SCORE <;>
      cases hx3 : getKp pose "right_hip" MIN_KP_SCORE <;>
      cases hx4 : getKp pose "left_shoulder" MIN_KP_SCORE <;>
      cases hx5 : getKp pose "right_shoulder" MIN_KP_SCORE <;>
      first | rfl | simp_all
  · fin_cases hj <;>
    · unfold vSleighRide
      cases hx0 : getKp pose "left_wrist" MIN_KP_SCORE <;>
      cases hx1 : getKp pose "right_wrist" MIN_KP_SCORE <;>
      cases hx2 : getKp pose "left_shoulder" MIN_KP_SCORE <;>
      cases hx3 : getKp pose "right_shoulder" MIN_KP_SCORE <;>
      first | rfl | simp_all
  · fin_cases hj <;>
    · unfold vElfDance
      cases hx0 : getKp pose "left_hip" MIN_KP_SCORE <;>
      cases hx1 : getKp pose "right_hip" MIN_KP_SCORE <;>
      cases hx2 : getKp pose "left_wrist" MIN_KP_SCORE <;>
      cases hx3 : getKp pose "right_wrist" MIN_KP_SCORE <;>
      cases hx4 : getKp pose "left_knee" MIN_KP_SCORE <;>
      cases hx5 : getKp pose "right_knee" MIN_KP_SCORE <;>
      first | rfl | simp_all
  · fin_cases hj <;>
    · unfold vStarOnTop
      cases hx0 : getKp pose "left_wrist" MIN_KP_SCORE <;>
      cases hx1 : getKp pose "right_wrist" MIN_KP_SCORE <;>
      cases hx2 : getKp pose "left_ankle" MIN_KP_SCORE <;>
      cases hx3 : getKp pose "right_ankle" MIN_KP_SCORE <;>
      cases hx4 : getKp pose "nose" MIN_KP_SCORE <;>
      first | rfl | simp_all
  · fin_cases hj <;>
    · unfold vPresentSurprise
      cases hx0 : getKp pose "left_wrist" MIN_KP_SCORE <;>
      cases hx1 : getKp pose "right_wrist" MIN_KP_SCORE <;>
      cases hx2 : getKp pose "nose" MIN_KP_SCORE <;>
      first | rfl | simp_all
  · fin_cases hj <;>
    · unfold vJingleBellRock
      cases hx0 : getKp pose "left_wrist" MIN_KP_SCORE <;>
      cases hx1 : getKp pose "right_wrist" MIN_KP_SCORE <;>
      cases hx2 : getKp pose "nose" MIN_KP_SCORE <;>
      cases hx3 : getKp pose "left_hip" MIN_KP_SCORE <;>
      first | rfl | simp_all
  · fin_cases hj <;>
    · unfold vFrostyWave
      cases hx0 : getKp pose "right_wrist" MIN_KP_SCORE <;>
      cases hx1 : getKp pose "right_shoulder" MIN_KP_SCORE <;>
      cases hx2 : getKp pose "nose" MIN_KP_SCORE <;>
      first | rfl | simp_all
  · fin_cases hj <;>
    · unfold vMistletoeKiss
      cases hx0 : getKp pose "right_wrist" MIN_KP_SCORE <;>
      cases hx1 : getKp pose "nose" MIN_KP_SCORE <;>
      first | rfl | simp_all
  · fin_cases hj <;>
    · unfold vNutcrackerMarch
      cases hx0 : getKp pose "left_knee" MIN_KP_SCORE <;>
      cases hx1 : getKp pose "right_knee" MIN_KP_SCORE <;>
      cases hx2 : getKp pose "left_hip" MIN_KP_SCORE <;>
      cases hx3 : getKp pose "right_hip" MIN_KP_SCORE <;>
      first | rfl | simp_all
  · fin_cases hj <;>
    · unfold vChimneyClimb
      cases hx0 : getKp pose "left_wrist" MIN_KP_SCORE <;>
      cases hx1 : getKp pose "right_wrist" MIN_KP_SCORE <;>
      cases hx2 : getKp pose "nose" MIN_KP_SCORE <;>
      first | rfl | simp_all
  · fin_cases hj <;>
    · unfold vSantasBagCarry
      cases hx0 : getKp pose "right_wrist" MIN_KP_SCORE <;>
      cases hx1 : getKp pose "right_shoulder" MIN_KP_SCORE <;>
      cases hx2 : getKp pose "right_ear" MIN_KP_SCORE <;>
      first | rfl | simp_all

/-- Witness for C5: the empty pose is missing the left shoulder required
by the T-Pose validator, so that validator scores it 0. -/
theorem validator_missing_required_joint_zero_witness :
    Challenge.validate ⟨"T-Pose", "Arms straight out to the sides", vTPose⟩ ⟨[]⟩ = 0 :=
  validator_missing_required_joint_zero
    ⟨"T-Pose", "Arms straight out to the sides", vTPose⟩
    (List.mem_cons_self _ _) ⟨[]⟩ "left_shoulder" (by simp [requiredJoints]) rfl

theorem hipScale_pos (pose : Pose) :
    0 < hipScale pose ∧ (1 < hipScale pose ∨ hipScale pose = 100) := by
  unfold hipScale
  cases getKp pose "left_hip" MIN_KP_SCORE <;> cases getKp pose "right_hip" MIN_KP_SCORE <;>
    dsimp only <;>
    first
      | (split_ifs with hgt
         exacts [⟨by linarith, Or.inl hgt⟩, by norm_num])
      | norm_num

/-- C10: for every pose — including poses with no usable joints —
`shoulderScale` is strictly positive: either a shoulder or hip distance
greater than 1, or the constant 100.  Hence every scale-relative division
inside the validators (for instance Clap's `0.45 * s` denominator)
divides by a nonzero number, and every validator is total. -/
theorem shoulderScale_always_positive (pose : Pose) :
    0 < shoulderScale pose ∧ (1 < shoulderScale pose ∨ shoulderScale pose = 100) ∧
      (0.45 : ℝ) * shoulderScale pose ≠ 0 := by
  have hip := hipScale_pos pose
  have main : 0 < shoulderScale pose ∧ (1 < shoulderScale pose ∨ shoulderScale pose = 100) := by
    unfold shoulderScale
    cases getKp pose "left_shoulder" MIN_KP_SCORE <;>
      cases getKp pose "right_shoulder" MIN_KP_SCORE <;>
      dsimp only <;>
      first
        | (split_ifs with hgt
           exacts [⟨by linarith, Or.inl hgt⟩, hip])
        | exact hip
  exact ⟨main.1, main.2, mul_ne_zero (by norm_num) (ne_of_gt main.1)⟩

theorem modifyEntry_append (f : LBEntry → LBEntry) (pre : List LBEntry) (e : LBEntry)
    (post : List LBEntry) :
    modifyEntry f pre.length (pre ++ e :: post) = pre ++ f e :: post := by
  induction pre with
  | nil => rfl
  | cons a rest ih => simpa [modifyEntry] using ih

theorem findPlayerIndex_eq_none_of (pname : String) (l : List LBEntry)
    (h : ∀ e ∈ l, ∃ n, e.name = some n ∧ lowerStr n ≠ lowerStr pname) :
    findPlayerIndex pname l = some none := by
  induction l with
  | nil => rfl
  | cons e rest ih =>
    obtain ⟨n, hn, hne⟩ := h e (List.mem_cons_self _ _)
    unfold findPlayerIndex
    rw [hn]
    simp only []
    rw [if_neg hne, ih (fun e' he' => h e' (List.mem_cons_of_mem _ he'))]
    rfl

theorem findPlayerIndex_found (pname : String) : ∀ (l : List LBEntry),
    (∀ e ∈ l, ∃ n, e.name = some n) →
    entriesFor pname l ≠ [] →
    ∃ i, findPlayerIndex pname l = some (some i) := by
  intro l
  induction l with
  | nil => intro _ hne; simp [entriesFor] at hne
  | cons a rest ih =>
    intro hn hne
    obtain ⟨n, hna⟩ := hn a (List.mem_cons_self _ _)
    unfold findPlayerIndex
    rw [hna]
    simp only []
    by_cases heq : lowerStr n = lowerStr pname
    · exact ⟨0, by rw [if_pos heq]⟩
    · rw [if_neg heq]
      have hmB : isMatchB pname a = false := by
        unfold isMatchB
        rw [hna]
        simp [heq]
      have hrest : entriesFor pname rest ≠ [] := by
        unfold entriesFor at hne ⊢
        rwa [List.filter_cons, if_neg (by simp [hmB])] at hne
      obtain ⟨i, hi⟩ := ih (fun e he => hn e (List.mem_cons_of_mem _ he)) hrest
      exact ⟨i + 1, by rw [hi]; rfl⟩

theorem findPlayerIndex_some_spec (pname : String) : ∀ (l : List LBEntry) (i : ℕ),
    findPlayerIndex pname l = some (some i) →
    ∃ pre e post, l = pre ++ e :: post ∧ pre.length = i ∧
      isMatchB pname e = true ∧
      (∀ e' ∈ pre, isMatchB pname e' = false) := by
  intro l
  induction l with
  | nil => intro i h; simp [findPlayerIndex] at h
  | cons a rest ih =>
    intro i h
    unfold findPlayerIndex at h
    cases hn : a.name with
    | none => rw [hn] at h; simp at h
    | some n =>
      rw [hn] at h
      simp only [] at h
      by_cases heq : lowerStr n = lowerStr pname
      · rw [if_pos heq] at h
        have hi : i = 0 := by
          injection h with h1
          injection h1 with h2
          omega
        refine ⟨[], a, rest, rfl, by simp [hi], ?_, by simp⟩
        unfold isMatchB
        rw [hn]
        simp [heq]
      · rw [if_neg heq] at h
        cases hfr : findPlayerIndex pname rest with
        | none => rw [hfr] at h; simp at h
        | some o =>
          rw [hfr] at h
          cases o with
          | none => simp at h
          | some i' =>
            simp at h
            obtain ⟨pre, e, post, hl, hlen, hmatch, hpre⟩ := ih i' hfr
            refine ⟨a :: pre, e, post, by simp [hl],
              by simp only [List.length_cons, hlen]; omega, hmatch, ?_⟩
            intro e' he'
            rcases List.mem_cons.mp he' with rfl | he''
            · unfold isMatchB
              rw [hn]
              simp [heq]
            · exact hpre e' he''

theorem findPlayerIndex_none_spec (pname : String) : ∀ (l : List LBEntry),
    findPlayerIndex pname l = some none →
    ∀ e ∈ l, ∃ n, e.name = some n ∧ lowerStr n ≠ lowerStr pname := by
  intro l
  induction l with
  | nil => intro _ e he; cases he
  | cons a rest ih =>
    intro h e he
    unfold findPlayerIndex at h
    cases hn : a.name with
    | none => rw [hn] at h; simp at h
    | some n =>
      rw [hn] at h
      simp only [] at h
      by_cases heq : lowerStr n = lowerStr pname
      · rw [if_pos heq] at h; simp at h
      · rw [if_neg heq] at h
        rcases List.mem_cons.mp he with rfl | he'
        · exact ⟨n, hn, heq⟩
        · refine ih ?_ e he'
          cases hfr : findPlayerIndex pname rest with
          | none => rw [hfr] at h; simp at h
          | some o =>
            cases o with
            | none => rfl
            | some i => rw [hfr] at h; simp at h

theorem filterMap_name_modify (fs fa : ℤ) (now : ℕ) :
    ∀ (l : List LBEntry) (i : ℕ),
    (modifyEntry (applySession fs fa now) i l).filterMap LBEntry.name =
      l.filterMap LBEntry.name := by
  intro l
  induction l with
  | nil => intro i; cases i <;> rfl
  | cons a rest ih =>
    intro i
    cases i with
    | zero => rfl
    | succ n =>
      show (a :: modifyEntry (applySession fs fa now) n rest).filterMap LBEntry.name =
        (a :: rest).filterMap LBEntry.name
      rw [List.filterMap_cons, List.filterMap_cons, ih n]

theorem noDupNames_sublist {l l' : List LBEntry} (hs : l.Sublist l') (h : NoDupNames l') :
    NoDupNames l :=
  List.Nodup.sublist (List.Sublist.map lowerStr (hs.filterMap LBEntry.name)) h

theorem noDupNames_perm {l l' : List LBEntry} (hp : l.Perm l') (h : NoDupNames l) :
    NoDupNames l' :=
  (List.Perm.nodup_iff (List.Perm.map lowerStr (hp.filterMap LBEntry.name))).mp h

/-- C8 amended: the complex-flow merge, starting from a collection with at
most one entry per case-insensitive name, persists a collection that again
has at most one entry per case-insensitive name. -/
theorem merge_preserves_unique_names (pname : String) (fs fa : ℤ) (now : ℕ)
    (blob : StoredBlob) (R : List LBEntry)
    (hinv : NoDupNames (loadBoard blob))
    (h : finishGameMerge pname fs fa now blob = some R) :
    NoDupNames R := by
  unfold finishGameMerge at h
  cases hm : mergedEntries pname fs fa now blob with
  | none => rw [hm] at h; simp at h
  | some M =>
    rw [hm] at h
    simp only [Option.map_some'] at h
    have hR : R = (M.insertionSort scoreGe).take 200 := by
      injection h with h1
      exact h1.symm
    have hMnd : NoDupNames M := by
      unfold mergedEntries at hm
      cases hf : findPlayerIndex pname (loadBoard blob) with
      | none => rw [hf] at hm; simp at hm
      | some o =>
        rw [hf] at hm
        cases o with
        | some i =>
          simp only [] at hm
          injection hm with hm1
          subst hm1
          refine noDupNames_sublist (List.filter_sublist _) ?_
          unfold NoDupNames
          rw [filterMap_name_modify]
          exact hinv
        | none =>
          simp only [] at hm
          injection hm with hm1
          subst hm1
          refine noDupNames_sublist (List.filter_sublist _) ?_
          unfold NoDupNames
          rw [List.filterMap_append, List.map_append]
          have hnew : ([newEntry pname fs fa now].filterMap LBEntry.name).map lowerStr =
              [lowerStr pname] := rfl
          rw [hnew]
          have hspec := findPlayerIndex_none_spec pname (loadBoard blob) hf
          have hnotmem : lowerStr pname ∉
              (List.filterMap LBEntry.name (loadBoard blob)).map lowerStr := by
            intro hmem
            obtain ⟨nm, hnm, hlow⟩ := List.mem_map.mp hmem
            obtain ⟨e, he, hename⟩ := List.mem_filterMap.mp hnm
            obtain ⟨n2, hn2, hne2⟩ := hspec e he
            rw [hn2] at hename
            injection hename with hh
            subst hh
            exact hne2 hlow
          exact List.Nodup.append hinv (List.nodup_singleton _)
            (by simpa [List.disjoint_singleton] using hnotmem)
    subst hR
    exact noDupNames_sublist (List.take_sublist _ _)
      (noDupNames_perm (List.perm_insertionSort scoreGe M).symm hMnd)

instance (l : List LBEntry) : Decidable (NoDupNames l) := by
  unfold NoDupNames; infer_instance

instance (l : List SimpleEntry) : Decidable (SimpleNoDupNames l) := by
  unfold SimpleNoDupNames; infer_instance

/-- Witness for C8: merging a fresh player into a single-entry collection
keeps names unique. -/
theorem merge_preserves_unique_names_witness :
    NoDupNames [⟨some "Ana", 10, 50, 100, 1⟩, ⟨some "Bob", 7, 90, 200, 1⟩] :=
  merge_preserves_unique_names "Bob" 7 90 200
    (StoredBlob.jsonArray [⟨some "Ana", 10, 50, 100, 1⟩])
    [⟨some "Ana", 10, 50, 100, 1⟩, ⟨some "Bob", 7, 90, 200, 1⟩]
    (by decide) (by decide)

/-- C8 counterexample: the simplified flow's `finishGame` appends a second
entry for an existing case-insensitive name, so the claim fails for the
collections it persists. -/
theorem simple_merge_duplicate_names :
    SimpleNoDupNames [⟨"Ana", 10, 80, 100⟩] ∧
    simpleFinishGame "Ana" 7 90 200 (SimpleBlob.jsonArray [⟨"Ana", 10, 80, 100⟩]) =
      some [⟨"Ana", 10, 80, 100⟩, ⟨"Ana", 7, 90, 200⟩] ∧
    ¬ SimpleNoDupNames [⟨"Ana", 10, 80, 100⟩, ⟨"Ana", 7, 90, 200⟩] :=
  ⟨by decide, rfl, by decide⟩

/-- C7 amended: every collection the complex-flow merge persists has no
entry with a missing name, is sorted descending by score (ties keeping
their stable pre-sort order), and has length at most 200, with only
lowest-scoring entries evicted. -/
theorem merge_result_sorted_bounded (pname : String) (fs fa : ℤ) (now : ℕ)
    (blob : StoredBlob) (R : List LBEntry)
    (h : finishGameMerge pname fs fa now blob = some R) :
    (∀ e ∈ R, e.name.isSome = true) ∧
    R.Pairwise scoreGe ∧
    R.length ≤ 200 ∧
    ∃ M dropped, mergedEntries pname fs fa now blob = some M ∧
      (R ++ dropped).Perm M ∧ ∀ b ∈ dropped, ∀ a ∈ R, b.score ≤ a.score := by
  unfold finishGameMerge at h
  cases hm : mergedEntries pname fs fa now blob with
  | none => rw [hm] at h; simp at h
  | some M =>
    rw [hm] at h
    simp only [Option.map_some'] at h
    injection h with h1
    have hR : R = (M.insertionSort scoreGe).take 200 := h1.symm
    have hMfilter : ∀ e ∈ M, e.name.isSome = true := by
      unfold mergedEntries at hm
      cases hf : findPlayerIndex pname (loadBoard blob) with
      | none => rw [hf] at hm; simp at hm
      | some o =>
        rw [hf] at hm
        cases o with
        | some i =>
          simp only [] at hm
          injection hm with hm1
          subst hm1
          intro e he
          have h3 := List.of_mem_filter he
          exact h3
        | none =>
          simp only [] at hm
          injection hm with hm1
          subst hm1
          intro e he
          have h3 := List.of_mem_filter he
          exact h3
    have hsorted : (M.insertionSort scoreGe).Pairwise scoreGe :=
      List.sorted_insertionSort scoreGe M
    subst hR
    refine ⟨?_, ?_, ?_, ?_⟩
    · intro e he
      exact hMfilter e ((List.perm_insertionSort scoreGe M).subset
        (List.take_subset _ _ he))
    · exact List.Pairwise.sublist (List.take_sublist _ _) hsorted
    · exact List.length_take_le _ _
    · refine ⟨M, (M.insertionSort scoreGe).drop 200, rfl, ?_, ?_⟩
      · rw [List.take_append_drop]
        exact List.perm_insertionSort scoreGe M
      · have hsplit : ((M.insertionSort scoreGe).take 200 ++
            (M.insertionSort scoreGe).drop 200).Pairwise scoreGe := by
          rw [List.take_append_drop]
          exact hsorted
        intro b hb a ha
        exact (List.pairwise_append.mp hsplit).2.2 a ha b hb

/-- Witness for C7: concrete merge of a fresh player into a one-entry
collection; the persisted list is name-complete, score-sorted and bounded. -/
theorem merge_result_sorted_bounded_witness :
    (∀ e ∈ ([⟨some "ana", 7, 90, 200, 1⟩, ⟨some "bob", 5, 80, 100, 1⟩] : List LBEntry),
        e.name.isSome = true) ∧
    ([⟨some "ana", 7, 90, 200, 1⟩, ⟨some "bob", 5, 80, 100, 1⟩] : List LBEntry).Pairwise
      scoreGe ∧
    ([⟨some "ana", 7, 90, 200, 1⟩, ⟨some "bob", 5, 80, 100, 1⟩] : List LBEntry).length ≤
      200 ∧
    ∃ M dropped,
      mergedEntries "ana" 7 90 200
          (StoredBlob.jsonArray [⟨some "bob", 5, 80, 100, 1⟩]) = some M ∧
      (([⟨some "ana", 7, 90, 200, 1⟩, ⟨some "bob", 5, 80, 100, 1⟩] : List LBEntry) ++
          dropped).Perm M ∧
      ∀ b ∈ dropped,
        ∀ a ∈ ([⟨some "ana", 7, 90, 200, 1⟩, ⟨some "bob", 5, 80, 100, 1⟩] : List LBEntry),
          b.score ≤ a.score :=
  merge_result_sorted_bounded "ana" 7 90 200
    (StoredBlob.jsonArray [⟨some "bob", 5, 80, 100, 1⟩])
    [⟨some "ana", 7, 90, 200, 1⟩, ⟨some "bob", 5, 80, 100, 1⟩] (by decide)

/-- C7 counterexample: the persisted collection keeps two tied-score
entries in stable pre-sort order — the older timestamp first — so the
persisted list is not tie-broken by most-recent timestamp first. -/
theorem merge_tie_not_recency_ordered :
    finishGameMerge "carol" 3 70 2000
        (StoredBlob.jsonArray
          [⟨some "alice", 5, 80, 0, 1⟩, ⟨some "bob", 5, 85, 1000, 1⟩]) =
      some [⟨some "alice", 5, 80, 0, 1⟩, ⟨some "bob", 5, 85, 1000, 1⟩,
        ⟨some "carol", 3, 70, 2000, 1⟩] ∧
    ¬ ([⟨some "alice", 5, 80, 0, 1⟩, ⟨some "bob", 5, 85, 1000, 1⟩,
        ⟨some "carol", 3, 70, 2000, 1⟩] : List LBEntry).Pairwise
      (fun a b => b.score < a.score ∨ (b.score = a.score ∧ b.timestamp ≤ a.timestamp)) :=
  ⟨by decide, by decide⟩

theorem entriesFor_eq_nil (pname : String) (l : List LBEntry)
    (h : ∀ e ∈ l, isMatchB pname e = false) : entriesFor pname l = [] := by
  unfold entriesFor
  refine List.filter_eq_nil_iff.mpr ?_
  intro a ha
  simp [h a ha]

theorem isMatchB_false_of (pname : String) (e : LBEntry) (n : String)
    (hn : e.name = some n) (hne : lowerStr n ≠ lowerStr pname) :
    isMatchB pname e = false := by
  unfold isMatchB
  rw [hn]
  simp [hne]

theorem merge_fresh_result (p : String) (fs fa : ℤ) (t : ℕ) (board : List LBEntry)
    (hboard : ∀ e ∈ board, ∃ n, e.name = some n ∧ lowerStr n ≠ lowerStr p)
    (hlen : board.length < 200) :
    finishGameMerge p fs fa t (StoredBlob.jsonArray board) =
      some ((board ++ [newEntry p fs fa t]).insertionSort scoreGe) := by
  have hfind : findPlayerIndex p (loadBoard (StoredBlob.jsonArray board)) = some none :=
    findPlayerIndex_eq_none_of p board hboard
  unfold finishGameMerge mergedEntries
  rw [hfind]
  simp only [Option.map_some']
  have hfil : (loadBoard (StoredBlob.jsonArray board) ++ [newEntry p fs fa t]).filter
      (fun e => e.name.isSome) = board ++ [newEntry p fs fa t] := by
    refine List.filter_eq_self.mpr ?_
    intro e he
    rcases List.mem_append.mp he with hb | hnew
    · obtain ⟨n, hn, _⟩ := hboard e hb
      simp [hn]
    · rcases List.mem_singleton.mp hnew with rfl
      rfl
  rw [hfil, List.take_of_length_le]
  rw [List.length_insertionSort]
  simp only [List.length_append, List.length_singleton]
  omega

theorem merge_twice_core (board : List LBEntry) (p : String)
    (fs1 fa1 fs2 fa2 : ℤ) (t1 t2 : ℕ)
    (hboard : ∀ e ∈ board, ∃ n, e.name = some n ∧ lowerStr n ≠ lowerStr p)
    (hlen : board.length < 200) :
    ∃ R1 R2,
      finishGameMerge p fs1 fa1 t1 (StoredBlob.jsonArray board) = some R1 ∧
      finishGameMerge p fs2 fa2 t2 (StoredBlob.jsonArray R1) = some R2 ∧
      entriesFor p R2 = [⟨some p, fs1 + fs2, fa2, t2, 2⟩] := by
  have h1 : finishGameMerge p fs1 fa1 t1 (StoredBlob.jsonArray board) =
      some ((board ++ [newEntry p fs1 fa1 t1]).insertionSort scoreGe) :=
    merge_fresh_result p fs1 fa1 t1 board hboard hlen
  have hperm1 : ((board ++ [newEntry p fs1 fa1 t1]).insertionSort scoreGe).Perm
      (board ++ [newEntry p fs1 fa1 t1]) := List.perm_insertionSort scoreGe _
  have hR1len : ((board ++ [newEntry p fs1 fa1 t1]).insertionSort scoreGe).length =
      board.length + 1 := by
    rw [List.length_insertionSort]
    simp
  have hR1names : ∀ e ∈ (board ++ [newEntry p fs1 fa1 t1]).insertionSort scoreGe,
      ∃ n, e.name = some n := by
    intro e he
    rcases List.mem_append.mp (hperm1.subset he) with hb | hnew
    · obtain ⟨n, hn, _⟩ := hboard e hb
      exact ⟨n, hn⟩
    · rcases List.mem_singleton.mp hnew with rfl
      exact ⟨p, rfl⟩
  have hmatch_new : isMatchB p (newEntry p fs1 fa1 t1) = true := by
    simp [isMatchB, newEntry]
  have hEb : entriesFor p board = [] := by
    refine entriesFor_eq_nil p board ?_
    intro e he
    obtain ⟨n, hn, hne⟩ := hboard e he
    exact isMatchB_false_of p e n hn hne
  have hEF1 : entriesFor p ((board ++ [newEntry p fs1 fa1 t1]).insertionSort scoreGe) =
      [newEntry p fs1 fa1 t1] := by
    have hp : (entriesFor p ((board ++ [newEntry p fs1 fa1 t1]).insertionSort scoreGe)).Perm
        (entriesFor p (board ++ [newEntry p fs1 fa1 t1])) := List.Perm.filter _ hperm1
    rw [show entriesFor p (board ++ [newEntry p fs1 fa1 t1]) =
        entriesFor p board ++ entriesFor p [newEntry p fs1 fa1 t1] from
      List.filter_append _ _] at hp
    rw [hEb] at hp
    rw [show entriesFor p [newEntry p fs1 fa1 t1] = [newEntry p fs1 fa1 t1] from by
      unfold entriesFor
      rw [List.filter_cons, if_pos (by simp [hmatch_new])]
      rfl] at hp
    exact List.perm_singleton.mp (by simpa using hp)
  have hEFne : entriesFor p ((board ++ [newEntry p fs1 fa1 t1]).insertionSort scoreGe) ≠
      [] := by
    rw [hEF1]
    simp
  obtain ⟨i, hfind2⟩ := findPlayerIndex_found p _ hR1names hEFne
  obtain ⟨pre, e0, post, hsplit, hlen_i, hm_e0, hpre⟩ :=
    findPlayerIndex_some_spec p _ i hfind2
  have hEpre : entriesFor p pre = [] := entriesFor_eq_nil _ _ hpre
  have hEdecomp : entriesFor p ((board ++ [newEntry p fs1 fa1 t1]).insertionSort scoreGe) =
      entriesFor p pre ++ e0 :: entriesFor p post := by
    rw [hsplit]
    unfold entriesFor
    rw [List.filter_append, List.filter_cons, if_pos (by simp [hm_e0])]
  have he0both : newEntry p fs1 fa1 t1 = e0 ∧ entriesFor p post = [] := by
    rw [hEF1, hEpre] at hEdecomp
    simp only [List.nil_append] at hEdecomp
    injection hEdecomp with ha hb
    exact ⟨ha, hb.symm⟩
  obtain ⟨he0, hEpost⟩ := he0both
  have hupd_val : applySession fs2 fa2 t2 e0 = ⟨some p, fs1 + fs2, fa2, t2, 2⟩ := by
    rw [← he0]
    simp [applySession, newEntry]
  have hmod : modifyEntry (applySession fs2 fa2 t2) i
      ((board ++ [newEntry p fs1 fa1 t1]).insertionSort scoreGe) =
      pre ++ applySession fs2 fa2 t2 e0 :: post := by
    rw [hsplit, ← hlen_i]
    exact modifyEntry_append _ _ _ _
  have hfil2 : (modifyEntry (applySession fs2 fa2 t2) i
      ((board ++ [newEntry p fs1 fa1 t1]).insertionSort scoreGe)).filter
      (fun e => e.name.isSome) = pre ++ applySession fs2 fa2 t2 e0 :: post := by
    rw [hmod]
    refine List.filter_eq_self.mpr ?_
    intro e he
    rcases List.mem_append.mp he with hpre' | hpost'
    · obtain ⟨n, hn⟩ := hR1names e (by rw [hsplit]; exact List.mem_append_left _ hpre')
      simp [hn]
    · rcases List.mem_cons.mp hpost' with rfl | hpost''
      · rw [hupd_val]
        rfl
      · obtain ⟨n, hn⟩ := hR1names e
          (by rw [hsplit]; exact List.mem_append_right _ (List.mem_cons_of_mem _ hpost''))
        simp [hn]
  have hlen2 : (pre ++ applySession fs2 fa2 t2 e0 :: post).length =
      ((board ++ [newEntry p fs1 fa1 t1]).insertionSort scoreGe).length := by
    rw [hsplit]
    simp
  have h2 : finishGameMerge p fs2 fa2 t2
      (StoredBlob.jsonArray ((board ++ [newEntry p fs1 fa1 t1]).insertionSort scoreGe)) =
      some ((pre ++ applySession fs2 fa2 t2 e0 :: post).insertionSort scoreGe) := by
    unfold finishGameMerge mergedEntries
    rw [show loadBoard (StoredBlob.jsonArray
        ((board ++ [newEntry p fs1 fa1 t1]).insertionSort scoreGe)) =
      (board ++ [newEntry p fs1 fa1 t1]).insertionSort scoreGe from rfl, hfind2]
    simp only [Option.map_some']
    rw [hfil2, List.take_of_length_le]
    rw [List.length_insertionSort, hlen2, hR1len]
    omega
  have hperm2 : ((pre ++ applySession fs2 fa2 t2 e0 :: post).insertionSort scoreGe).Perm
      (pre ++ applySession fs2 fa2 t2 e0 :: post) := List.perm_insertionSort scoreGe _
  have hmatch_upd : isMatchB p (applySession fs2 fa2 t2 e0) = true := by
    rw [hupd_val]
    simp [isMatchB]
  have hEF2 : entriesFor p ((pre ++ applySession fs2 fa2 t2 e0 :: post).insertionSort
      scoreGe) = [applySession fs2 fa2 t2 e0] := by
    have hp : (entriesFor p ((pre ++ applySession fs2 fa2 t2 e0 :: post).insertionSort
        scoreGe)).Perm (entriesFor p (pre ++ applySession fs2 fa2 t2 e0 :: post)) :=
      List.Perm.filter _ hperm2
    rw [show entriesFor p (pre ++ applySession fs2 fa2 t2 e0 :: post) =
        entriesFor p pre ++ entriesFor p (applySession fs2 fa2 t2 e0 :: post) from
      List.filter_append _ _] at hp
    rw [hEpre] at hp
    rw [show entriesFor p (applySession fs2 fa2 t2 e0 :: post) =
        applySession fs2 fa2 t2 e0 :: entriesFor p post from by
      unfold entriesFor
      rw [List.filter_cons, if_pos (by simp [hmatch_upd])]] at hp
    rw [hEpost] at hp
    exact List.perm_singleton.mp (by simpa using hp)
  refine ⟨(board ++ [newEntry p fs1 fa1 t1]).insertionSort scoreGe,
    (pre ++ applySession fs2 fa2 t2 e0 :: post).insertionSort scoreGe, h1, h2, ?_⟩
  rw [hEF2, hupd_val]

/-- C6 amended: starting from a collection with fewer than 200 entries, all
carrying names, none of them the player's, merging two finished sessions
for the same case-insensitive player name — in either order — persists
exactly one entry for that player whose score is the sum of the two
sessions' total scores and whose attempts count is 2 (the number of
sessions merged). -/
theorem merge_same_player_accumulates (board : List LBEntry) (p : String)
    (fs1 fa1 fs2 fa2 : ℤ) (t1 t2 : ℕ)
    (hboard : ∀ e ∈ board, ∃ n, e.name = some n ∧ lowerStr n ≠ lowerStr p)
    (hlen : board.length < 200) :
    (∃ R1 R2,
      finishGameMerge p fs1 fa1 t1 (StoredBlob.jsonArray board) = some R1 ∧
      finishGameMerge p fs2 fa2 t2 (StoredBlob.jsonArray R1) = some R2 ∧
      entriesFor p R2 = [⟨some p, fs1 + fs2, fa2, t2, 2⟩]) ∧
    (∃ R1 R2,
      finishGameMerge p fs2 fa2 t2 (StoredBlob.jsonArray board) = some R1 ∧
      finishGameMerge p fs1 fa1 t1 (StoredBlob.jsonArray R1) = some R2 ∧
      entriesFor p R2 = [⟨some p, fs1 + fs2, fa1, t1, 2⟩]) := by
  refine ⟨merge_twice_core board p fs1 fa1 fs2 fa2 t1 t2 hboard hlen, ?_⟩
  rw [show fs1 + fs2 = fs2 + fs1 from add_comm _ _]
  exact merge_twice_core board p fs2 fa2 fs1 fa1 t2 t1 hboard hlen

/-- Witness for C6: two sessions (15 and 20 points) for "Ana" merged into
a one-entry collection for "Bob" leave a single Ana entry with score 35
and attempts 2, whichever session goes first. -/
theorem merge_same_player_accumulates_witness :
    (∃ R1 R2,
      finishGameMerge "Ana" 15 80 100
          (StoredBlob.jsonArray [⟨some "Bob", 50, 90, 0, 1⟩]) = some R1 ∧
      finishGameMerge "Ana" 20 90 200 (StoredBlob.jsonArray R1) = some R2 ∧
      entriesFor "Ana" R2 = [⟨some "Ana", 15 + 20, 90, 200, 2⟩]) ∧
    (∃ R1 R2,
      finishGameMerge "Ana" 20 90 200
          (StoredBlob.jsonArray [⟨some "Bob", 50, 90, 0, 1⟩]) = some R1 ∧
      finishGameMerge "Ana" 15 80 100 (StoredBlob.jsonArray R1) = some R2 ∧
      entriesFor "Ana" R2 = [⟨some "Ana", 15 + 20, 80, 100, 2⟩]) :=
  merge_same_player_accumulates [⟨some "Bob", 50, 90, 0, 1⟩] "Ana" 15 80 20 90 100 200
    (by
      intro e he
      rw [List.mem_singleton] at he
      subst he
      exact ⟨"Bob", rfl, by decide⟩)
    (by decide)

/-- C6 counterexample: when the collection already holds an entry for the
player (score 10, attempts 1), merging two sessions of 15 and 20 points
accumulates to score 45 and attempts 3 — not the claimed sessions-only
sum 35 with attempts 2. -/
theorem merge_existing_player_not_session_sum :
    (finishGameMerge "Ana" 15 80 100
        (StoredBlob.jsonArray [⟨some "Ana", 10, 50, 0, 1⟩])).bind
      (fun R1 => finishGameMerge "Ana" 20 90 200 (StoredBlob.jsonArray R1)) =
      some [⟨some "Ana", 45, 90, 200, 3⟩] ∧
    ((45 : ℤ) ≠ 15 + 20 ∧ (3 : ℕ) ≠ 2) :=
  ⟨by decide, by decide⟩

/-- C9 amended: the complex-flow merge treats an absent, unparsable or
non-array leaderboard blob as the empty collection and proceeds without
throwing, persisting exactly the new session entry; the simplified flow
does so only for an absent blob. -/
theorem corrupt_blob_treated_empty (pname : String) (fs fa : ℤ) (now : ℕ) :
    finishGameMerge pname fs fa now StoredBlob.absent =
        some [newEntry pname fs fa now] ∧
    finishGameMerge pname fs fa now StoredBlob.malformed =
        some [newEntry pname fs fa now] ∧
    finishGameMerge pname fs fa now StoredBlob.nonArrayJson =
        some [newEntry pname fs fa now] ∧
    simpleFinishGame pname fs fa now SimpleBlob.absent = some [⟨pname, fs, fa, now⟩] :=
  ⟨rfl, rfl, rfl, rfl⟩

/-- C9 counterexample: the simplified flow parses the stored blob without
a try/catch and pushes without an array check, so an unparsable blob — or
a parsable non-array one — makes its merge throw instead of proceeding
with an empty collection. -/
theorem simple_merge_throws_on_corrupt :
    simpleFinishGame "Ana" 5 80 100 SimpleBlob.malformed = none ∧
    simpleFinishGame "Ana" 5 80 100 SimpleBlob.nonArrayJson = none :=
  ⟨rfl, rfl⟩
